import Mathlib

/-! # Forge OpenGL backend: surface transform, grid indices, window

A shallow embedding of parts of `src/backend/opengl/surface_impl.cpp` and
`src/backend/opengl/window_impl.cpp`, with the properties proved about them.

Conventions of the embedding:

* `float` values are rationals and the operations on them are exact, except
  the ones a definition takes as a parameter: in `computeTransformMat` the
  subtraction `mRange[1] - mRange[0]`, whose rounded result the guard tests,
  and the division;
* `unsigned short` values are naturals below `2^16` and every store reduces
  modulo `2^16`; in `generateGridIndices` an `int` product or sum that can
  leave the 32-bit range is reduced to it (two's complement);
* the `int` fields of the widget (`mRows`, `mCols`, `mWidth`, ...) are
  integers; the product `mRows*mCols` that sizes the view-matrix collection
  and the index `r + c*mRows` of `draw` are reduced to the 32-bit range
  (two's complement), the cell offsets of `draw` are exact;
* pointers are addresses (naturals, `0` is the null pointer) and `new` takes
  the next unused address of the process;
* loops that may fail to terminate take a fuel argument and return `none`
  when the fuel runs out.
-/

namespace Forge

/-! ## glm: vectors and column-major 4x4 matrices -/

/-- A `glm::vec4` over exact rationals. -/
structure Vec4 where
  x : ℚ
  y : ℚ
  z : ℚ
  w : ℚ
  deriving DecidableEq, Repr

/-- A `glm::vec3` over exact rationals. -/
structure Vec3 where
  x : ℚ
  y : ℚ
  z : ℚ
  deriving DecidableEq, Repr

/-- A `glm::mat4`: four columns, `c0 = m[0]`, ..., `c3 = m[3]`. -/
structure Mat4 where
  c0 : Vec4
  c1 : Vec4
  c2 : Vec4
  c3 : Vec4
  deriving DecidableEq, Repr

namespace Vec4

/-- Component-wise sum, `glm::vec4 + glm::vec4`. -/
def add (a b : Vec4) : Vec4 := ⟨a.x + b.x, a.y + b.y, a.z + b.z, a.w + b.w⟩

/-- Product with a scalar, `glm::vec4 * float`. -/
def smul (a : Vec4) (s : ℚ) : Vec4 := ⟨a.x * s, a.y * s, a.z * s, a.w * s⟩

end Vec4

namespace Mat4

/-- The matrix `glm::mat4(1.0f)`. -/
def identity : Mat4 := ⟨⟨1, 0, 0, 0⟩, ⟨0, 1, 0, 0⟩, ⟨0, 0, 1, 0⟩, ⟨0, 0, 0, 1⟩⟩

/-- Matrix times column vector: `m[0]*v.x + m[1]*v.y + m[2]*v.z + m[3]*v.w`. -/
def mulVec (m : Mat4) (v : Vec4) : Vec4 :=
  ((m.c0.smul v.x).add (m.c1.smul v.y)).add ((m.c2.smul v.z).add (m.c3.smul v.w))

/-- Matrix product `a * b`: column `j` of the result is `a * b[j]`. -/
def mul (a b : Mat4) : Mat4 := ⟨a.mulVec b.c0, a.mulVec b.c1, a.mulVec b.c2, a.mulVec b.c3⟩

end Mat4

/-- The function `glm::scale(m, v)`: scales the first three columns of `m`. -/
def glmScale (m : Mat4) (v : Vec3) : Mat4 :=
  ⟨m.c0.smul v.x, m.c1.smul v.y, m.c2.smul v.z, m.c3⟩

/-- The function `glm::translate(m, v)`: keeps the first three columns and sets
`m[3] := m[0]*v[0] + m[1]*v[1] + m[2]*v[2] + m[3]`. -/
def glmTranslate (m : Mat4) (v : Vec3) : Mat4 :=
  ⟨m.c0, m.c1, m.c2,
    (((m.c0.smul v.x).add (m.c1.smul v.y)).add (m.c2.smul v.z)).add m.c3⟩

namespace surface_impl

/-! ## surface_impl::computeTransformMat -/

/-- The data range `mRange[0..5]`: min and max of X, of Y and of Z. -/
structure Range6 where
  xmin : ℚ
  xmax : ℚ
  ymin : ℚ
  ymax : ℚ
  zmin : ℚ
  zmax : ℚ
  deriving DecidableEq, Repr

/-- The guarded scale `std::abs(range) < 1.0e-3 ? 1.0f : 2/(range)`, with the
division taken as the parameter `dv`. -/
def graphScaleWith (dv : ℚ → ℚ → ℚ) (range : ℚ) : ℚ :=
  if |range| < 1 / 1000 then 1 else dv 2 range

/-- The three values `graph_scale_x`, `graph_scale_y`, `graph_scale_z`. The
`float` subtraction that computes `range_x = mRange[1] - mRange[0]` (and
`range_y`, `range_z`) is the parameter `sub`, so that the guard tests the
computed, rounded difference; the division is the parameter `dv`. A `float`
is below the `double` constant `1.0e-3` exactly when it is below `1/1000`. -/
def graphScalesWith (sub dv : ℚ → ℚ → ℚ) (mRange : Range6) : Vec3 :=
  let range_x := sub mRange.xmax mRange.xmin
  let range_y := sub mRange.ymax mRange.ymin
  let range_z := sub mRange.zmax mRange.zmin
  ⟨graphScaleWith dv range_x, graphScaleWith dv range_y, graphScaleWith dv range_z⟩

/-- The body of `surface_impl::computeTransformMat` with the subtraction of
the ranges and the division taken as the parameters `sub` and `dv`; `MODEL`
is the static orientation matrix of the function. -/
def computeTransformMatWith (sub dv : ℚ → ℚ → ℚ) (MODEL : Mat4) (mRange : Range6)
    (pView : Mat4) : Mat4 :=
  let scales := graphScalesWith sub dv mRange
  let graph_scale_x := scales.x
  let graph_scale_y := scales.y
  let graph_scale_z := scales.z
  let coor_offset_x := -mRange.xmin * graph_scale_x
  let coor_offset_y := -mRange.ymin * graph_scale_y
  let coor_offset_z := -mRange.zmin * graph_scale_z
  let sMat := glmScale MODEL ⟨graph_scale_x, -1 * graph_scale_y, graph_scale_z⟩
  let tMat := glmTranslate sMat
    ⟨-1 + coor_offset_x, -1 + coor_offset_y, -1 + coor_offset_z⟩
  pView.mul tMat

/-- The function `surface_impl::computeTransformMat` in exact arithmetic. -/
def computeTransformMat (MODEL : Mat4) (mRange : Range6) (pView : Mat4) : Mat4 :=
  computeTransformMatWith (fun a b => a - b) (fun a b => a / b) MODEL mRange pView

/-- The image of the point `(x, y, z, 1)` under the scale and offset part of
the transform: `MODEL` and `pView` are the identity. -/
def scaleOffsetImage (mRange : Range6) (x y z : ℚ) : Vec4 :=
  (computeTransformMat Mat4.identity mRange Mat4.identity).mulVec ⟨x, y, z, 1⟩

end surface_impl

/-! ## generateGridIndices -/

/-- Reduction of an `int` result to the 32-bit two's complement range. Signed
overflow is undefined in C++; the embedding takes the two's complement
result. In `generateGridIndices` only the parity of `i` depends on it. -/
def wrapInt (x : Int) : Int := (x + 2147483648) % 4294967296 - 2147483648

/-- Conversion of an `int` value to `unsigned short`. -/
def toUShort (x : Int) : Nat := (x % 65536).toNat

/-- The inner loop `for(unsigned short c = 0; c < cols*2; ++c)` of
`generateGridIndices`, started at counter `c`, with `idx` the running index
and `out` the entries written so far. It returns the final `idx` and the
entries, or `none` when the fuel runs out. -/
def innerLoop (cols r : Nat) : Nat → Nat → Nat → List Nat → Option (Nat × List Nat)
  | 0, _, _, _ => none
  | fuel + 1, c, idx, out =>
    if (c : Int) < (cols : Int) * 2 then
      let i := toUShort (wrapInt ((c : Int) + wrapInt ((r : Int) * wrapInt ((cols : Int) * 2))))
      let idx' :=
        if (c : Int) = (cols : Int) * 2 - 1 then idx
        else if i % 2 = 0 then toUShort ((idx : Int) + (cols : Int))
        else toUShort ((idx : Int) - (if r % 2 = 0 then (cols : Int) - 1 else (cols : Int) + 1))
      innerLoop cols r fuel (toUShort ((c : Int) + 1)) idx' (out ++ [idx])
    else some (idx, out)

/-- The outer loop `for(unsigned short r = 0; r < rows-1; ++r)` of
`generateGridIndices`, started at counter `r`. -/
def outerLoop (rows cols : Nat) : Nat → Nat → Nat → List Nat → Option (List Nat)
  | 0, _, _, _ => none
  | fuel + 1, r, idx, out =>
    if (r : Int) < (rows : Int) - 1 then
      match innerLoop cols r fuel 0 idx out with
      | none => none
      | some (idx', out') => outerLoop rows cols fuel (toUShort ((r : Int) + 1)) idx' out'
    else some out

/-- The function `generateGridIndices(rows, cols, indices)`: the list of the
entries stored through `*indices++`, in the order written, or `none` when the
fuel runs out. The arguments are `unsigned short`: below `2^16`. -/
def generateGridIndices (fuel rows cols : Nat) : Option (List Nat) :=
  outerLoop rows cols fuel 0 0 []

namespace surface_impl

/-- The index count `mIBOSize = (2 * mNumYPoints) * (mNumXPoints - 1)` of the
constructor, computed in `GLuint` (unsigned, 32 bits) from `GLuint` fields. -/
def mIBOSize (mNumXPoints mNumYPoints : Nat) : Nat :=
  (((2 * mNumYPoints) % 4294967296) * ((mNumXPoints + 4294967296 - 1) % 4294967296))
    % 4294967296

/-- The call `generateGridIndices(mNumXPoints, mNumYPoints, indices.data())`
of the constructor: the `GLuint` fields are converted to `unsigned short`. -/
def constructorIndices (fuel mNumXPoints mNumYPoints : Nat) : Option (List Nat) :=
  generateGridIndices fuel (mNumXPoints % 65536) (mNumYPoints % 65536)

end surface_impl

/-! ## Closed form of the index buffer (used in the proofs) -/

/-- The value of the entry written in strip row `r` at counter `c`. -/
def gridEntryAt (C r c : Nat) : Nat :=
  ((if r % 2 = 0 then r * C + c / 2 else r * C + (C - 1 - c / 2)) +
    (if c % 2 = 0 then 0 else C)) % 65536

/-- The value of the entry at position `j` of the buffer. -/
def gridEntry (C j : Nat) : Nat := gridEntryAt C (j / (2 * C)) (j % (2 * C))

/-- The first `n` entries of the buffer for `C` columns. -/
def gridList (C n : Nat) : List Nat := (List.range n).map (gridEntry C)

/-! ## std::vector, exceptions and the calls into OpenGL and FreeImage -/

/-- The call `v.resize(n)` of `std::vector`: the first `n` elements are kept
and the missing ones are copies of the value-initialised element `value`. -/
def vectorResize {α : Type} (v : List α) (n : Nat) (value : α) : List α :=
  if n ≤ v.length then v.take n else v ++ List.replicate (n - v.length) value

/-- The call `std::fill(v.begin(), v.end(), x)`. -/
def vectorFill {α : Type} (v : List α) (x : α) : List α := v.map (fun _ => x)

/-- The error codes of `fg::Error` that the embedded functions use. -/
inductive ErrorCode where
  | FG_ERR_GL_ERROR
  | FG_ERR_FREEIMAGE_UNKNOWN_FORMAT
  | FG_ERR_FREEIMAGE_BAD_ALLOC
  deriving DecidableEq, Repr

/-- The exceptions thrown: `fg::ArgumentError(function, line, index, message)`,
`fg::Error(function, line, message, code)`, `std::length_error` and
`fg::TypeError(function, line, index, type)`. -/
inductive Exception where
  | ArgumentError (function : String) (line : Nat) (index : Int) (message : String)
  | Error (function : String) (line : Nat) (message : String) (code : ErrorCode)
  | length_error
  | TypeError (function : String) (line : Nat) (index : Int) (dataType : Nat)
  deriving DecidableEq, Repr

/-- The image formats of FreeImage that `saveFrameBuffer` tells apart. -/
inductive FREE_IMAGE_FORMAT where
  | FIF_UNKNOWN
  | FIF_BMP
  | FIF_PNG
  | FIF_JPEG
  | FIF_OTHER (code : Nat)
  deriving DecidableEq, Repr

/-- The OpenGL enumerants that the embedded functions pass. -/
inductive GLenum where
  | GL_COLOR_BUFFER_BIT
  | GL_DEPTH_BUFFER_BIT
  | GL_PIXEL_PACK_BUFFER
  | GL_READ_ONLY
  | GL_SCISSOR_TEST
  | GL_PROGRAM_POINT_SIZE
  | GL_TRIANGLE_STRIP
  | GL_POINTS
  | GL_ARRAY_BUFFER
  | GL_ELEMENT_ARRAY_BUFFER
  | GL_DYNAMIC_DRAW
  | GL_STATIC_DRAW
  | GL_FLOAT
  | GL_INT
  | GL_UNSIGNED_INT
  | GL_SHORT
  | GL_UNSIGNED_SHORT
  | GL_UNSIGNED_BYTE
  | GL_BYTE
  | GL_OTHER (code : Nat)
  deriving DecidableEq, Repr

/-- One call into OpenGL, FreeImage, the widget, the font or the renderable,
as recorded in the trace of a function. `CheckGL` is the macro of
`err_opengl.hpp`: the trace records where it stands. `glGenVertexArrays`
carries the name that the driver returned. -/
inductive Effect where
  | glViewport (x y w h : Int)
  | glClearColor (r g b a : ℚ)
  | glClear (mask : List GLenum)
  | glBindBuffer (target : GLenum) (buffer : Nat)
  | glMapBuffer (target access : GLenum)
  | glUnmapBuffer (target : GLenum)
  | FI_Init
  | FreeImage_SetOutputMessage
  | FreeImage_GetFileType (path : String)
  | FreeImage_GetFIFFromFilename (path : String)
  | FreeImage_Allocate (w h d : Nat)
  | FreeImage_GetPitch
  | FreeImage_GetBits
  | FreeImage_Save (format : FREE_IMAGE_FORMAT) (bits : List Nat) (path : String) (flags : Nat)
  | FreeImage_Unload
  | CheckGL (message : String)
  | makeContextCurrent
  | resetCloseFlag
  | glScissor (x y w h : Int)
  | glEnable (cap : GLenum)
  | glDisable (cap : GLenum)
  | setColorMapUBOParams (ubo size : Nat)
  | render (windowId x y w h viewIndex : Int) (view : Option Mat4)
  | setOthro2D (w h : Int)
  | fontRender (windowId : Int) (posX posY : ℚ) (color : Vec4) (text : String) (size : Nat)
  | glUseProgram (program : Nat)
  | glUniformMatrix4fv (location : Nat) (value : Mat4)
  | glUniform2fv (location count : Nat) (value : List ℚ)
  | glUniform1i (location : Nat) (value : Int)
  | glUniform4fv (location count : Nat) (value : Vec4)
  | glGenVertexArrays (vao : Nat)
  | glBindVertexArray (vao : Nat)
  | glEnableVertexAttribArray (index : Nat)
  | glVertexAttribPointer (index size : Nat) (dataType : GLenum)
  | glDrawElements (mode : GLenum) (count : Nat) (dataType : GLenum)
  deriving DecidableEq, Repr

/-- Whether an effect is a call into the GPU (an OpenGL call). -/
def Effect.isGpuCall : Effect → Bool
  | .glViewport _ _ _ _ => true
  | .glClearColor _ _ _ _ => true
  | .glClear _ => true
  | .glBindBuffer _ _ => true
  | .glMapBuffer _ _ => true
  | .glUnmapBuffer _ => true
  | .glScissor _ _ _ _ => true
  | .glEnable _ => true
  | .glDisable _ => true
  | .glUseProgram _ => true
  | .glUniformMatrix4fv _ _ => true
  | .glUniform2fv _ _ _ => true
  | .glUniform1i _ _ => true
  | .glUniform4fv _ _ _ => true
  | .glGenVertexArrays _ => true
  | .glBindVertexArray _ => true
  | .glEnableVertexAttribArray _ => true
  | .glVertexAttribPointer _ _ _ => true
  | .glDrawElements _ _ _ => true
  | _ => false

/-- Whether an effect is the allocation of a bitmap. -/
def Effect.isBitmapAllocation : Effect → Bool
  | .FreeImage_Allocate _ _ _ => true
  | _ => false

/-! ## window_impl -/

/-- The fields of `wtk::Widget` that `window_impl` reads and writes. -/
structure Widget where
  mWidth : Int
  mHeight : Int
  mRows : Int
  mCols : Int
  mCellWidth : Int
  mCellHeight : Int
  mViewMatrices : List Mat4
  mFramePBO : Nat
  deriving DecidableEq, Repr

/-- The data members of `window_impl`. The pointers `mWindow`,
`mGLEWContext`, `mCMap` and `mFont` are addresses; `mWidget` is the widget
that `mWindow` points to. -/
structure WindowImpl where
  mID : Int
  mWindow : Nat
  mWidget : Widget
  mGLEWContext : Nat
  mCxt : Int
  mDsp : Int
  mCMap : Nat
  mColorMapUBO : Nat
  mUBOSize : Nat
  mFont : Nat
  deriving DecidableEq, Repr

/-- The state of the process that the constructor of `window_impl` touches:
the static counter of `getNextUniqueId`, the static pointer `current`, the
next unused address, and the live `window_impl` objects by address. -/
structure Process where
  wndUnqIdTracker : Int
  current : Nat
  nextAddr : Nat
  windows : List (Nat × WindowImpl)
  deriving DecidableEq, Repr

/-- The state of a process at start: the static counter is `0`, `current` is
the null pointer and no window exists. -/
def Process.start : Process := ⟨0, 0, 1, []⟩

/-- The expression `new T(...)`: the next unused address is taken. -/
def Process.alloc (p : Process) : Nat × Process :=
  (p.nextAddr, { p with nextAddr := p.nextAddr + 1 })

/-- A `std::weak_ptr<window_impl>`: empty, or the address of the object it
observes (which may have been destroyed since). -/
abbrev WeakPtr := Option Nat

/-- The call `pWindow.lock()`: the observed object when it is still live,
nothing for an empty or expired reference. -/
def lock (p : Process) (pWindow : WeakPtr) : Option WindowImpl :=
  match pWindow with
  | none => none
  | some a => (p.windows.find? (fun e => e.1 == a)).map (fun e => e.2)

/-- The function `getNextUniqueId()` on the static counter: the value
returned by `wndUnqIdTracker++` and the counter after the call. The lock
guard makes the calls of a process one sequence. -/
def getNextUniqueId (wndUnqIdTracker : Int) : Int × Int :=
  (wndUnqIdTracker, wrapInt (wndUnqIdTracker + 1))

/-- The static counter after `n` calls of `getNextUniqueId` in a process. -/
def trackerAfter : Nat → Int
  | 0 => 0
  | n + 1 => (getNextUniqueId (trackerAfter n)).2

/-- The value returned by the `k`-th call of `getNextUniqueId` in a process,
`k = 1, 2, ...`. -/
def kthUniqueId (k : Nat) : Int := (getNextUniqueId (trackerAfter (k - 1))).1

/-- What the constructor of `window_impl` gets from the windowing toolkit,
GLEW, OpenGL and the colormap table: the widget built by `new wtk::Widget`
(given the address of the widget to share with, `0` for `nullptr`), the
results of `glewInit() == GLEW_OK`, of `glGetError()` as "neither
`GL_NO_ERROR` nor `GL_INVALID_ENUM`", the two native handles, the widget
after `resizePixelBuffers`, the default colormap of a table, the
value-initialised `glm::mat4` and whether the closing `CheckGL` passes. -/
structure Toolkit where
  newWidget : Int → Int → String → Nat → Bool → Widget
  glewInitOk : Bool
  glErrorAfterInit : Bool
  getGLContextHandle : Int
  getDisplayHandle : Int
  resizePixelBuffers : Widget → Widget
  defaultMap : Nat → Nat
  defaultLen : Nat → Nat
  freshMat4 : Mat4
  checkGLOk : Bool

namespace window_impl

/-- The three statements shared by the constructor and `grid`:
`mats.resize(mRows*mCols)` followed by `std::fill` with `glm::mat4(1)`. The
product of the two `int` fields is an `int`, reduced to the 32-bit range. A
negative product converts to a size beyond `max_size()`, and `resize` throws
`std::length_error`: `none`. -/
def resetViewMatrices (fresh : Mat4) (mWindow : Widget) : Option Widget :=
  let size := wrapInt (mWindow.mRows * mWindow.mCols)
  if size < 0 then none
  else
    let mats := vectorResize mWindow.mViewMatrices size.toNat fresh
    some { mWindow with mViewMatrices := vectorFill mats Mat4.identity }

/-- The function `MakeContextCurrent(pWindow)` for a non-null window: the
static `current` becomes the GLEW context of the window. -/
def MakeContextCurrent (p : Process) (mGLEWContext : Nat) : Process :=
  { p with current := mGLEWContext }

/-- The constructor `window_impl::window_impl(pWidth, pHeight, pTitle,
pWindow, invisible)`: the process after the call, and the constructed object
or the exception thrown. The calls that set no data member and no static
(`glEnable`, `loadSystemFont`) are left out; the closing `CheckGL` throws when
its check fails. -/
def window_impl (env : Toolkit) (p0 : Process) (pWidth pHeight : Int) (pTitle : String)
    (pWindow : WeakPtr) (invisible : Bool) : Process × Except Exception WindowImpl :=
  let mID := (getNextUniqueId p0.wndUnqIdTracker).1
  let p1 := { p0 with wndUnqIdTracker := (getNextUniqueId p0.wndUnqIdTracker).2 }
  let function := "window_impl constructor"
  let (mWindow, p2) := p1.alloc
  let first : Widget × Nat × Process :=
    match lock p2 pWindow with
    | some observe =>
      (env.newWidget pWidth pHeight pTitle observe.mWindow invisible, observe.mGLEWContext, p2)
    | none =>
      (env.newWidget pWidth pHeight pTitle 0 invisible, p2.alloc.1, p2.alloc.2)
  let mWidget := first.1
  let mGLEWContext := first.2.1
  let p3 := first.2.2
  if (lock p2 pWindow).isNone ∧ mGLEWContext = 0 then
    (p3, .error (.Error function 112 "GLEW context creation failed" .FG_ERR_GL_ERROR))
  else
    let p4 := MakeContextCurrent p3 mGLEWContext
    if ¬ env.glewInitOk then
      (p4, .error (.Error function 125 "GLEW init failed" .FG_ERR_GL_ERROR))
    else if env.glErrorAfterInit then
      (p4, .error (.Error function 134 "GLEW initilization failed" .FG_ERR_GL_ERROR))
    else
      let mCxt := env.getGLContextHandle
      let mDsp := env.getDisplayHandle
      let second : Nat × Process :=
        match lock p4 pWindow with
        | some observe => (observe.mCMap, p4)
        | none => p4.alloc
      let mCMap := second.1
      let p5 := second.2
      let mWidget := env.resizePixelBuffers mWidget
      let mColorMapUBO := env.defaultMap mCMap
      let mUBOSize := env.defaultLen mCMap
      match resetViewMatrices env.freshMat4 mWidget with
      | none => (p5, .error .length_error)
      | some mWidget =>
        let (mFont, p6) := p5.alloc
        if ¬ env.checkGLOk then
          (p6, .error (.Error "End Window::Window" 170 "GL error" .FG_ERR_GL_ERROR))
        else
          (p6, .ok ⟨mID, mWindow, mWidget, mGLEWContext, mCxt, mDsp, mCMap,
            mColorMapUBO, mUBOSize, mFont⟩)

/-- The function `window_impl::grid(pRows, pCols)` on the widget of the
window: the calls issued, and the widget after the call. `WHITE` is the
colour constant of `common.hpp` and `fresh` the value-initialised
`glm::mat4`. A zero divisor or a failing `resize` gives no widget. -/
def grid (WHITE : Vec4) (fresh : Mat4) (mWindow : Widget) (pRows pCols : Int) :
    List Effect × Option Widget :=
  let calls := [Effect.glViewport 0 0 mWindow.mWidth mWindow.mHeight,
    Effect.glClearColor WHITE.x WHITE.y WHITE.z WHITE.w,
    Effect.glClear [GLenum.GL_COLOR_BUFFER_BIT, GLenum.GL_DEPTH_BUFFER_BIT]]
  let w1 := { mWindow with mRows := pRows, mCols := pCols }
  if w1.mCols = 0 ∨ w1.mRows = 0 then (calls, none)
  else
    let w2 := { w1 with mCellWidth := Int.tdiv w1.mWidth w1.mCols }
    let w3 := { w2 with mCellHeight := Int.tdiv w2.mHeight w2.mRows }
    (calls, resetViewMatrices fresh w3)

end window_impl

/-- A bitmap of FreeImage: its row pitch in bytes and its bytes, as
`FreeImage_GetPitch` and `FreeImage_GetBits` give them. -/
structure Bitmap where
  pitch : Nat
  bits : List Nat
  deriving DecidableEq, Repr

/-- What `saveFrameBuffer` gets from the image codec and from the GPU: the
two format detectors, the allocator (nothing for a null bitmap), the byte
offsets `FI_RGBA_RED`, ... of the channels within a pixel, and
`glMapBuffer` on the bound pixel buffer (nothing for a null pointer). -/
structure SaveContext where
  FreeImage_GetFileType : String → FREE_IMAGE_FORMAT
  FreeImage_GetFIFFromFilename : String → FREE_IMAGE_FORMAT
  FreeImage_Allocate : Nat → Nat → Nat → Option Bitmap
  FI_RGBA_RED : Nat
  FI_RGBA_GREEN : Nat
  FI_RGBA_BLUE : Nat
  FI_RGBA_ALPHA : Nat
  glMapBuffer : Nat → Option (List Nat)

/-- The flag `JPEG_QUALITYSUPERB` of FreeImage. -/
def JPEG_QUALITYSUPERB : Nat := 128

namespace window_impl

/-- The body of the inner copy loop of `saveFrameBuffer` at column `x`, with
`base` the offset of `dst` within the bitmap and `i` the pixel counter; the
products are taken in `uint`. -/
def copyPixel (fi : SaveContext) (src dst : List Nat) (base x i : Nat) : List Nat :=
  let c := 4
  let xc := (x * c) % 4294967296
  let d0 := dst.set (base + xc + fi.FI_RGBA_RED) (src.getD ((4 * i + 0) % 4294967296) 0)
  let d1 := d0.set (base + xc + fi.FI_RGBA_GREEN) (src.getD ((4 * i + 1) % 4294967296) 0)
  let d2 := d1.set (base + xc + fi.FI_RGBA_BLUE) (src.getD ((4 * i + 2) % 4294967296) 0)
  d2.set (base + xc + fi.FI_RGBA_ALPHA) (src.getD ((4 * i + 3) % 4294967296) 0)

/-- The loop `for (uint x = 0; x < w; ++x)` of `saveFrameBuffer` on the pair
of the bitmap bytes and the pixel counter `i`. -/
def copyRow (fi : SaveContext) (src : List Nat) (w base : Nat) (st : List Nat × Nat) :
    List Nat × Nat :=
  (List.range w).foldl
    (fun (st : List Nat × Nat) x =>
      (copyPixel fi src st.1 base x st.2, (st.2 + 1) % 4294967296)) st

/-- The loop `for (uint y = 0; y < h; ++y)` of `saveFrameBuffer`: the bitmap
bytes after the copy; `dst += pitch` moves the base offset. -/
def copyRows (fi : SaveContext) (src : List Nat) (w h pitch : Nat) (dst : List Nat) : List Nat :=
  ((List.range h).foldl
    (fun (st : List Nat × Nat × Nat) _ =>
      let row := copyRow fi src w st.2.1 (st.1, st.2.2)
      (row.1, st.2.1 + pitch, row.2)) (dst, 0, 0)).1

/-- The detection of the format in `saveFrameBuffer`:
`format = FreeImage_GetFileType(pFullPath)`, and when that is `FIF_UNKNOWN`,
`format = FreeImage_GetFIFFromFilename(pFullPath)`; with the calls made. -/
def detectFormat (fi : SaveContext) (path : String) : FREE_IMAGE_FORMAT × List Effect :=
  if fi.FreeImage_GetFileType path = .FIF_UNKNOWN then
    (fi.FreeImage_GetFIFFromFilename path,
      [Effect.FreeImage_GetFileType path, Effect.FreeImage_GetFIFFromFilename path])
  else (fi.FreeImage_GetFileType path, [Effect.FreeImage_GetFileType path])

/-- The function `window_impl::saveFrameBuffer(pFullPath)`, with `none` for a
null path: the calls issued, in order, and the exception thrown if any. -/
def saveFrameBuffer (fi : SaveContext) (self : WindowImpl) (pFullPath : Option String) :
    List Effect × Except Exception Unit :=
  let function := "window_impl::saveFrameBuffer"
  match pFullPath with
  | none => ([], .error (.ArgumentError function 381 1 "Empty path string"))
  | some path =>
    let t0 := [Effect.FI_Init, Effect.FreeImage_SetOutputMessage]
    let detect := detectFormat fi path
    let format := detect.1
    let t1 := t0 ++ detect.2
    if format = .FIF_UNKNOWN then
      (t1, .error (.Error function 398 "Freeimage: unrecognized image format"
        .FG_ERR_FREEIMAGE_UNKNOWN_FORMAT))
    else if ¬ (format = .FIF_BMP ∨ format = .FIF_PNG) then
      (t1, .error (.ArgumentError function 403 1 "Supports only bmp and png as of now"))
    else
      let w := (self.mWidget.mWidth % 4294967296).toNat
      let h := (self.mWidget.mHeight % 4294967296).toNat
      let c := 4
      let d := c * 8
      let t2 := t1 ++ [Effect.FreeImage_Allocate w h d]
      match fi.FreeImage_Allocate w h d with
      | none =>
        (t2, .error (.Error function 414 "Freeimage: allocation failed"
          .FG_ERR_FREEIMAGE_BAD_ALLOC))
      | some bmp =>
        let pitch := bmp.pitch
        let t3 := t2 ++ [Effect.FreeImage_GetPitch, Effect.FreeImage_GetBits,
          Effect.glBindBuffer .GL_PIXEL_PACK_BUFFER self.mWidget.mFramePBO,
          Effect.glMapBuffer .GL_PIXEL_PACK_BUFFER .GL_READ_ONLY]
        let copied : List Nat × List Effect :=
          match fi.glMapBuffer self.mWidget.mFramePBO with
          | some src =>
            (copyRows fi src w h pitch bmp.bits, t3 ++ [Effect.glUnmapBuffer .GL_PIXEL_PACK_BUFFER])
          | none => (bmp.bits, t3)
        let flags := if format = .FIF_JPEG then JPEG_QUALITYSUPERB else 0
        (copied.2 ++ [Effect.glBindBuffer .GL_PIXEL_PACK_BUFFER 0,
          Effect.FreeImage_Save format copied.1 path flags, Effect.FreeImage_Unload], .ok ())

end window_impl

/-! ## surface_impl and scatter3_impl: the renderable -/

/-- The marker type `FG_MARKER_NONE` of `fg/defines.h`. -/
def FG_MARKER_NONE : Int := 0

/-- A `std::map<int, GLuint>` as the list of its entries; no key occurs
twice. -/
abbrev VAOMap := List (Int × Nat)

/-- The call `m.find(k)`: the value under `k`, nothing for `m.end()`. -/
def mapFind (m : VAOMap) (k : Int) : Option Nat :=
  (m.find? (fun e => e.1 == k)).map (fun e => e.2)

/-- The assignment `m[k] = v`: `operator[]` finds the entry of `k` or inserts
one, and the value is stored in it. -/
def mapAssign (m : VAOMap) (k : Int) (v : Nat) : VAOMap :=
  if (mapFind m k).isSome then m.map (fun e => if e.1 == k then (k, v) else e)
  else m ++ [(k, v)]

/-- The read `m[k]`: the value under `k` and the map, to which `operator[]`
adds a value-initialised entry when `k` has none. -/
def mapIndex (m : VAOMap) (k : Int) : Nat × VAOMap :=
  match mapFind m k with
  | some v => (v, m)
  | none => (0, m ++ [(k, 0)])

/-- The data members of `surface_impl` and of its base that the embedded
functions use. `mVBO`, `mCBO` and `mABO` hold nothing until a buffer is
created. -/
structure SurfaceImpl where
  mNumXPoints : Nat
  mNumYPoints : Nat
  mDataType : GLenum
  mIsPVCOn : Bool
  mIsPVAOn : Bool
  mMarkerType : Int
  mIBO : Nat
  mIBOSize : Nat
  mMarkerProgram : Nat
  mSurfProgram : Nat
  mMarkerMatIndex : Nat
  mMarkerPointIndex : Nat
  mMarkerColorIndex : Nat
  mMarkerAlphaIndex : Nat
  mMarkerPVCIndex : Nat
  mMarkerPVAIndex : Nat
  mMarkerTypeIndex : Nat
  mMarkerColIndex : Nat
  mSurfMatIndex : Nat
  mSurfRangeIndex : Nat
  mSurfPointIndex : Nat
  mSurfColorIndex : Nat
  mSurfAlphaIndex : Nat
  mSurfPVCIndex : Nat
  mSurfPVAIndex : Nat
  mVAOMap : VAOMap
  mVBO : Option Nat
  mCBO : Option Nat
  mABO : Option Nat
  mVBOSize : Nat
  mCBOSize : Nat
  mABOSize : Nat
  mColor : Vec4
  mRange : surface_impl.Range6
  mLegend : String
  deriving DecidableEq, Repr

/-- The value of a `bool` passed as `GLint`. -/
def boolToInt (b : Bool) : Int := if b then 1 else 0

/-- The array `mRange` as `glUniform2fv` reads it. -/
def rangeValues (r : surface_impl.Range6) : List ℚ :=
  [r.xmin, r.xmax, r.ymin, r.ymax, r.zmin, r.zmax]

namespace surface_impl

/-- The function `surface_impl::bindResources(pWindowId)`: the calls issued
and the object after the call. `vao` is the name that the driver returns
when `glGenVertexArrays` is called. -/
def bindResources (vao : Nat) (self : SurfaceImpl) (pWindowId : Int) :
    List Effect × SurfaceImpl :=
  let created : List Effect × SurfaceImpl :=
    if mapFind self.mVAOMap pWindowId = none then
      ([Effect.glGenVertexArrays vao,
        Effect.glBindVertexArray vao,
        Effect.glEnableVertexAttribArray self.mSurfPointIndex,
        Effect.glBindBuffer .GL_ARRAY_BUFFER (self.mVBO.getD 0),
        Effect.glVertexAttribPointer self.mSurfPointIndex 3 self.mDataType,
        Effect.glEnableVertexAttribArray self.mSurfColorIndex,
        Effect.glBindBuffer .GL_ARRAY_BUFFER (self.mCBO.getD 0),
        Effect.glVertexAttribPointer self.mSurfColorIndex 3 .GL_FLOAT,
        Effect.glEnableVertexAttribArray self.mSurfAlphaIndex,
        Effect.glBindBuffer .GL_ARRAY_BUFFER (self.mABO.getD 0),
        Effect.glVertexAttribPointer self.mSurfAlphaIndex 1 .GL_FLOAT,
        Effect.glBindBuffer .GL_ELEMENT_ARRAY_BUFFER self.mIBO,
        Effect.glBindVertexArray 0],
        { self with mVAOMap := mapAssign self.mVAOMap pWindowId vao })
    else ([], self)
  let read := mapIndex created.2.mVAOMap pWindowId
  (created.1 ++ [Effect.glBindVertexArray read.1], { created.2 with mVAOMap := read.2 })

/-- The function `surface_impl::unbindResources()`. -/
def unbindResources : List Effect := [Effect.glBindVertexArray 0]

/-- The function `surface_impl::renderGraph(pWindowId, transform)`: the calls
issued and the object after the call. -/
def renderGraph (vao : Nat) (self : SurfaceImpl) (pWindowId : Int) (transform : Mat4) :
    List Effect × SurfaceImpl :=
  let t0 := [Effect.CheckGL "Begin surface_impl::renderGraph",
    Effect.glUseProgram self.mSurfProgram,
    Effect.glUniformMatrix4fv self.mSurfMatIndex transform,
    Effect.glUniform2fv self.mSurfRangeIndex 3 (rangeValues self.mRange),
    Effect.glUniform1i self.mSurfPVCIndex (boolToInt self.mIsPVCOn),
    Effect.glUniform1i self.mSurfPVAIndex (boolToInt self.mIsPVAOn)]
  let b1 := bindResources vao self pWindowId
  let s1 := b1.2
  let t1 := t0 ++ b1.1 ++
    [Effect.glDrawElements .GL_TRIANGLE_STRIP s1.mIBOSize .GL_UNSIGNED_SHORT] ++
    unbindResources ++ [Effect.glUseProgram 0]
  if s1.mMarkerType ≠ FG_MARKER_NONE then
    let t2 := t1 ++ [Effect.glEnable .GL_PROGRAM_POINT_SIZE,
      Effect.glUseProgram s1.mMarkerProgram,
      Effect.glUniformMatrix4fv s1.mMarkerMatIndex transform,
      Effect.glUniform1i s1.mMarkerPVCIndex (boolToInt s1.mIsPVCOn),
      Effect.glUniform1i s1.mMarkerPVAIndex (boolToInt s1.mIsPVAOn),
      Effect.glUniform1i s1.mMarkerTypeIndex s1.mMarkerType,
      Effect.glUniform4fv s1.mMarkerColIndex 1 s1.mColor]
    let b2 := bindResources vao s1 pWindowId
    let s2 := b2.2
    (t2 ++ b2.1 ++ [Effect.glDrawElements .GL_POINTS s2.mIBOSize .GL_UNSIGNED_SHORT] ++
      unbindResources ++ [Effect.glUseProgram 0, Effect.glDisable .GL_PROGRAM_POINT_SIZE,
        Effect.CheckGL "End surface_impl::renderGraph"], s2)
  else (t1 ++ [Effect.CheckGL "End surface_impl::renderGraph"], s1)

end surface_impl

namespace scatter3_impl

/-- The function `scatter3_impl::renderGraph(pWindowId, transform)`: the
calls issued and the object after the call. -/
def renderGraph (vao : Nat) (self : SurfaceImpl) (pWindowId : Int) (transform : Mat4) :
    List Effect × SurfaceImpl :=
  if self.mMarkerType ≠ FG_MARKER_NONE then
    let t0 := [Effect.glEnable .GL_PROGRAM_POINT_SIZE,
      Effect.glUseProgram self.mMarkerProgram,
      Effect.glUniformMatrix4fv self.mMarkerMatIndex transform,
      Effect.glUniform1i self.mMarkerPVCIndex (boolToInt self.mIsPVCOn),
      Effect.glUniform1i self.mMarkerPVAIndex (boolToInt self.mIsPVAOn),
      Effect.glUniform1i self.mMarkerTypeIndex self.mMarkerType,
      Effect.glUniform4fv self.mMarkerColIndex 1 self.mColor]
    let b := surface_impl.bindResources vao self pWindowId
    let s1 := b.2
    (t0 ++ b.1 ++ [Effect.glDrawElements .GL_POINTS s1.mIBOSize .GL_UNSIGNED_SHORT] ++
      surface_impl.unbindResources ++
      [Effect.glUseProgram 0, Effect.glDisable .GL_PROGRAM_POINT_SIZE], s1)
  else ([], self)

end scatter3_impl

/-- What the constructor of `surface_impl` gets from `common.hpp` and from
OpenGL: the conversion `dtype2gl` of an element type to its GL enumerant, the
program that `initShaders` builds from two named shader sources, the
locations of the uniforms and attributes of a program, the name of the
buffer that the `k`-th call of `createBuffer` returns (given `k`, the target
and the element count), and the range `mRange` that the base class leaves. -/
structure SurfaceEnv where
  dtype2gl : Nat → GLenum
  initShaders : String → String → Nat
  glGetUniformLocation : Nat → String → Nat
  glGetAttribLocation : Nat → String → Nat
  createBuffer : Nat → GLenum → Nat → Nat
  mRange : surface_impl.Range6

namespace surface_impl

/-- The macro `SURF_CREATE_BUFFERS(type)` of the constructor, with
`sizeOfType = sizeof(type)`: the three buffers and the three byte sizes. -/
def SURF_CREATE_BUFFERS (env : SurfaceEnv) (sizeOfType : Nat) (self : SurfaceImpl) :
    SurfaceImpl :=
  { self with
    mVBO := some (env.createBuffer 0 .GL_ARRAY_BUFFER self.mVBOSize)
    mCBO := some (env.createBuffer 1 .GL_ARRAY_BUFFER self.mCBOSize)
    mABO := some (env.createBuffer 2 .GL_ARRAY_BUFFER self.mABOSize)
    mVBOSize := self.mVBOSize * sizeOfType
    mCBOSize := self.mCBOSize * 4
    mABOSize := self.mABOSize * 4 }

/-- The constructor `surface_impl::surface_impl(pNumXPoints, pNumYPoints,
pDataType, pMarkerType)`: the exception objects that are constructed and
dropped without a `throw`, and the constructed object or the exception
thrown; `none` when the fuel of `generateGridIndices` runs out. The two
`CheckGL` brackets are left out. -/
def surface_impl (env : SurfaceEnv) (fuel pNumXPoints pNumYPoints pDataType : Nat)
    (pMarkerType : Int) : Option (List Exception × Except Exception SurfaceImpl) :=
  let mDataType := env.dtype2gl pDataType
  let mMarkerProgram := env.initShaders "plot3_vs" "marker_fs"
  let mSurfProgram := env.initShaders "plot3_vs" "plot3_fs"
  let totalPoints := (pNumXPoints * pNumYPoints) % 4294967296
  let s0 : SurfaceImpl :=
    { mNumXPoints := pNumXPoints
      mNumYPoints := pNumYPoints
      mDataType := mDataType
      mIsPVCOn := false
      mIsPVAOn := false
      mMarkerType := pMarkerType
      mIBO := 0
      mIBOSize := 0
      mMarkerProgram := mMarkerProgram
      mSurfProgram := mSurfProgram
      mMarkerMatIndex := env.glGetUniformLocation mMarkerProgram "transform"
      mMarkerPointIndex := env.glGetAttribLocation mMarkerProgram "point"
      mMarkerColorIndex := env.glGetAttribLocation mMarkerProgram "color"
      mMarkerAlphaIndex := env.glGetAttribLocation mMarkerProgram "alpha"
      mMarkerPVCIndex := env.glGetUniformLocation mMarkerProgram "isPVCOn"
      mMarkerPVAIndex := env.glGetUniformLocation mMarkerProgram "isPVAOn"
      mMarkerTypeIndex := env.glGetUniformLocation mMarkerProgram "marker_type"
      mMarkerColIndex := env.glGetUniformLocation mMarkerProgram "marker_color"
      mSurfMatIndex := env.glGetUniformLocation mSurfProgram "transform"
      mSurfRangeIndex := env.glGetUniformLocation mSurfProgram "minmaxs"
      mSurfPointIndex := env.glGetAttribLocation mSurfProgram "point"
      mSurfColorIndex := env.glGetAttribLocation mSurfProgram "color"
      mSurfAlphaIndex := env.glGetAttribLocation mSurfProgram "alpha"
      mSurfPVCIndex := env.glGetUniformLocation mSurfProgram "isPVCOn"
      mSurfPVAIndex := env.glGetUniformLocation mSurfProgram "isPVAOn"
      mVAOMap := []
      mVBO := none
      mCBO := none
      mABO := none
      mVBOSize := (3 * totalPoints) % 4294967296
      mCBOSize := (3 * totalPoints) % 4294967296
      mABOSize := totalPoints
      mColor := ⟨9 / 10, 5 / 10, 6 / 10, 1⟩
      mRange := env.mRange
      mLegend := "" }
  let switched : List Exception × SurfaceImpl :=
    match mDataType with
    | .GL_FLOAT => ([], SURF_CREATE_BUFFERS env 4 s0)
    | .GL_INT => ([], SURF_CREATE_BUFFERS env 4 s0)
    | .GL_UNSIGNED_INT => ([], SURF_CREATE_BUFFERS env 4 s0)
    | .GL_SHORT => ([], SURF_CREATE_BUFFERS env 2 s0)
    | .GL_UNSIGNED_SHORT => ([], SURF_CREATE_BUFFERS env 2 s0)
    | .GL_UNSIGNED_BYTE => ([], SURF_CREATE_BUFFERS env 4 s0)
    | _ => ([Exception.TypeError "surface_impl::surface_impl" 200 1 pDataType], s0)
  let s1 := switched.2
  let s2 := { s1 with mIBOSize := mIBOSize s1.mNumXPoints s1.mNumYPoints }
  match constructorIndices fuel s2.mNumXPoints s2.mNumYPoints with
  | none => none
  | some _ =>
    some (switched.1,
      .ok { s2 with mIBO := env.createBuffer 3 .GL_ELEMENT_ARRAY_BUFFER s2.mIBOSize })

/-- The surface pass of `surface_impl::renderGraph`, from
`glUseProgram(mSurfProgram)` to `glUseProgram(0)`. -/
def surfacePass (vao : Nat) (self : SurfaceImpl) (pWindowId : Int) (transform : Mat4) :
    List Effect × SurfaceImpl :=
  let b := bindResources vao self pWindowId
  ([Effect.glUseProgram self.mSurfProgram,
    Effect.glUniformMatrix4fv self.mSurfMatIndex transform,
    Effect.glUniform2fv self.mSurfRangeIndex 3 (rangeValues self.mRange),
    Effect.glUniform1i self.mSurfPVCIndex (boolToInt self.mIsPVCOn),
    Effect.glUniform1i self.mSurfPVAIndex (boolToInt self.mIsPVAOn)] ++ b.1 ++
    [Effect.glDrawElements .GL_TRIANGLE_STRIP b.2.mIBOSize .GL_UNSIGNED_SHORT,
      Effect.glBindVertexArray 0, Effect.glUseProgram 0], b.2)

/-- The marker pass of `surface_impl::renderGraph`: the block under
`if(mMarkerType != FG_MARKER_NONE)`. -/
def markerPass (vao : Nat) (self : SurfaceImpl) (pWindowId : Int) (transform : Mat4) :
    List Effect × SurfaceImpl :=
  if self.mMarkerType ≠ FG_MARKER_NONE then
    let b := bindResources vao self pWindowId
    ([Effect.glEnable .GL_PROGRAM_POINT_SIZE,
      Effect.glUseProgram self.mMarkerProgram,
      Effect.glUniformMatrix4fv self.mMarkerMatIndex transform,
      Effect.glUniform1i self.mMarkerPVCIndex (boolToInt self.mIsPVCOn),
      Effect.glUniform1i self.mMarkerPVAIndex (boolToInt self.mIsPVAOn),
      Effect.glUniform1i self.mMarkerTypeIndex self.mMarkerType,
      Effect.glUniform4fv self.mMarkerColIndex 1 self.mColor] ++ b.1 ++
      [Effect.glDrawElements .GL_POINTS b.2.mIBOSize .GL_UNSIGNED_SHORT,
        Effect.glBindVertexArray 0, Effect.glUseProgram 0,
        Effect.glDisable .GL_PROGRAM_POINT_SIZE], b.2)
  else ([], self)

/-- The draw step of the surface as the specification describes its
restriction: `surface_impl::renderGraph` with the surface pass and with the
`CheckGL` brackets each kept or removed. -/
def renderGraphRestricted (keepSurfacePass keepCheckGL : Bool) (vao : Nat)
    (self : SurfaceImpl) (pWindowId : Int) (transform : Mat4) : List Effect × SurfaceImpl :=
  let opening := if keepCheckGL then [Effect.CheckGL "Begin surface_impl::renderGraph"] else []
  let closing := if keepCheckGL then [Effect.CheckGL "End surface_impl::renderGraph"] else []
  let first := if keepSurfacePass then surfacePass vao self pWindowId transform else ([], self)
  let second := markerPass vao first.2 pWindowId transform
  (opening ++ first.1 ++ second.1 ++ closing, second.2)

end surface_impl

/-! ## window_impl::draw -/

/-- The value `int(f * cell)` for the factor `f = percent/100` (`0.06f`,
`0.02f`) and the `int` field `cell`, in exact arithmetic: the product
`percent * cell / 100` truncated toward zero. -/
def percentOf (percent cell : Int) : Int := Int.tdiv (percent * cell) 100

namespace window_impl

/-- The function `window_impl::draw(pColId, pRowId, pRenderable, pTitle)`,
with `none` for a null title: the process after the call and the calls
issued, among them the calls of the renderable. `AF_BLUE` is the colour
constant of `common.hpp`. The element `mViewMatrices[r+c*mRows]` is read
without a check: the trace carries the index, an `int` reduced to the 32-bit
range, and the element, or nothing when the index lies outside the
collection. -/
def draw (AF_BLUE : Vec4) (p : Process) (self : WindowImpl) (pColId pRowId : Int)
    (pTitle : Option String) : Process × List Effect :=
  let mWindow := self.mWidget
  let p1 := MakeContextCurrent p self.mGLEWContext
  let c := pColId
  let r := pRowId
  let x_off := c * mWindow.mCellWidth
  let y_off := (mWindow.mRows - 1 - r) * mWindow.mCellHeight
  let viewIndex := wrapInt (r + wrapInt (c * mWindow.mRows))
  let viewMatrix : Option Mat4 :=
    if viewIndex < 0 then none else mWindow.mViewMatrices[viewIndex.toNat]?
  let top_margin := percentOf 6 mWindow.mCellHeight
  let bot_margin := percentOf 2 mWindow.mCellHeight
  let lef_margin := percentOf 2 mWindow.mCellWidth
  let rig_margin := percentOf 2 mWindow.mCellWidth
  let t0 := [Effect.CheckGL "Begin draw(column, row)", Effect.makeContextCurrent,
    Effect.resetCloseFlag,
    Effect.glViewport (x_off + lef_margin) (y_off + bot_margin)
      (mWindow.mCellWidth - 2 * rig_margin) (mWindow.mCellHeight - 2 * top_margin),
    Effect.glScissor (x_off + lef_margin) (y_off + bot_margin)
      (mWindow.mCellWidth - 2 * rig_margin) (mWindow.mCellHeight - 2 * top_margin),
    Effect.glEnable .GL_SCISSOR_TEST,
    Effect.setColorMapUBOParams self.mColorMapUBO self.mUBOSize,
    Effect.render self.mID x_off y_off mWindow.mCellWidth mWindow.mCellHeight viewIndex
      viewMatrix,
    Effect.glDisable .GL_SCISSOR_TEST,
    Effect.glViewport x_off y_off mWindow.mCellWidth mWindow.mCellHeight]
  let t1 :=
    match pTitle with
    | some title =>
      t0 ++ [Effect.setOthro2D mWindow.mCellWidth mWindow.mCellHeight,
        Effect.fontRender self.mID ((mWindow.mCellWidth : ℚ) / 3)
          ((mWindow.mCellHeight : ℚ) * (92 / 100)) AF_BLUE title 16]
    | none => t0
  (p1, t1 ++ [Effect.CheckGL "End draw(column, row)"])

/-- The window after `grid(pRows, pCols)`, when `grid` returns. -/
def afterGrid (WHITE : Vec4) (fresh : Mat4) (self : WindowImpl) (pRows pCols : Int) :
    Option WindowImpl :=
  (grid WHITE fresh self.mWidget pRows pCols).2.map (fun w => { self with mWidget := w })

end window_impl

/-- The rectangles `(x, y, width, height)` handed to `render` in a trace. -/
def renderRects : List Effect → List (Int × Int × Int × Int)
  | [] => []
  | Effect.render _ x y w h _ _ :: rest => (x, y, w, h) :: renderRects rest
  | _ :: rest => renderRects rest

/-- The view-matrix lookups made for `render` in a trace: the index and the
element read. -/
def renderViews : List Effect → List (Int × Option Mat4)
  | [] => []
  | Effect.render _ _ _ _ _ i v :: rest => (i, v) :: renderViews rest
  | _ :: rest => renderViews rest

/-- The rectangles given to `glViewport` in a trace. -/
def viewportRects : List Effect → List (Int × Int × Int × Int)
  | [] => []
  | Effect.glViewport x y w h :: rest => (x, y, w, h) :: viewportRects rest
  | _ :: rest => viewportRects rest

/-- The rectangles given to `glScissor` in a trace. -/
def scissorRects : List Effect → List (Int × Int × Int × Int)
  | [] => []
  | Effect.glScissor x y w h :: rest => (x, y, w, h) :: scissorRects rest
  | _ :: rest => scissorRects rest

/-! ## Partial runs of the inner loop and counters over traces -/

/-- The state `(c, idx, out)` of the inner loop of `generateGridIndices`
after `n` passes through its body, or at its exit when it leaves earlier. The
body is that of `innerLoop`. -/
def innerLoopAfter (cols r : Nat) : Nat → Nat → Nat → List Nat → Nat × Nat × List Nat
  | 0, c, idx, out => (c, idx, out)
  | n + 1, c, idx, out =>
    if (c : Int) < (cols : Int) * 2 then
      let i := toUShort (wrapInt ((c : Int) + wrapInt ((r : Int) * wrapInt ((cols : Int) * 2))))
      let idx' :=
        if (c : Int) = (cols : Int) * 2 - 1 then idx
        else if i % 2 = 0 then toUShort ((idx : Int) + (cols : Int))
        else toUShort ((idx : Int) - (if r % 2 = 0 then (cols : Int) - 1 else (cols : Int) + 1))
      innerLoopAfter cols r n (toUShort ((c : Int) + 1)) idx' (out ++ [idx])
    else (c, idx, out)

/-- The number of `glGenVertexArrays` calls in a trace. -/
def genCount : List Effect → Nat
  | [] => 0
  | Effect.glGenVertexArrays _ :: rest => genCount rest + 1
  | _ :: rest => genCount rest

/-- The modes of the `glDrawElements` calls in a trace. -/
def drawModes : List Effect → List GLenum
  | [] => []
  | Effect.glDrawElements mode _ _ :: rest => mode :: drawModes rest
  | _ :: rest => drawModes rest

/-- The channel offsets `FI_RGBA_RED`, ... are four different offsets within
the four bytes of a pixel. -/
def SaveContext.channelsOk (fi : SaveContext) : Prop :=
  fi.FI_RGBA_RED < 4 ∧ fi.FI_RGBA_GREEN < 4 ∧ fi.FI_RGBA_BLUE < 4 ∧ fi.FI_RGBA_ALPHA < 4 ∧
    fi.FI_RGBA_RED ≠ fi.FI_RGBA_GREEN ∧ fi.FI_RGBA_RED ≠ fi.FI_RGBA_BLUE ∧
    fi.FI_RGBA_RED ≠ fi.FI_RGBA_ALPHA ∧ fi.FI_RGBA_GREEN ≠ fi.FI_RGBA_BLUE ∧
    fi.FI_RGBA_GREEN ≠ fi.FI_RGBA_ALPHA ∧ fi.FI_RGBA_BLUE ≠ fi.FI_RGBA_ALPHA

instance (fi : SaveContext) : Decidable fi.channelsOk := by
  unfold SaveContext.channelsOk
  infer_instance

/-- The bitmaps that a trace hands to `FreeImage_Save`. -/
def savedBits : List Effect → List (List Nat)
  | [] => []
  | Effect.FreeImage_Save _ bits _ _ :: rest => bits :: savedBits rest
  | _ :: rest => savedBits rest

/-! ## Triangles of a strip -/

/-- The four vertices of the grid cell `(r, k)` of a grid with `C` columns:
`r*C+k`, `r*C+k+1`, `(r+1)*C+k` and `(r+1)*C+k+1`. -/
def cellCorners (C r k : Nat) : List Nat :=
  [r * C + k, r * C + k + 1, (r + 1) * C + k, (r + 1) * C + k + 1]

/-- The vertices `a`, `b`, `c` are three distinct corners of the cell `(r, k)`. -/
def isCellTriangle (C r k a b c : Nat) : Prop :=
  a ∈ cellCorners C r k ∧ b ∈ cellCorners C r k ∧ c ∈ cellCorners C r k ∧
    a ≠ b ∧ b ≠ c ∧ a ≠ c

instance (C r k a b c : Nat) : Decidable (isCellTriangle C r k a b c) := by
  unfold isCellTriangle
  infer_instance

/-- The window of three consecutive entries of `out` that starts at the
position `j`, when the three positions exist. -/
def window3 (out : List Nat) (j : Nat) : Option (Nat × Nat × Nat) :=
  match out[j]?, out[j + 1]?, out[j + 2]? with
  | some a, some b, some c => some (a, b, c)
  | _, _, _ => none

/-! ## Well-formed processes and sample inputs -/

/-- No live window of the process holds an address that `new` has not handed
out yet, and the next address is not null. -/
def Process.wellFormed (p : Process) : Prop :=
  1 ≤ p.nextAddr ∧
    ∀ e ∈ p.windows, e.2.mWindow < p.nextAddr ∧ e.2.mGLEWContext < p.nextAddr ∧
      e.2.mCMap < p.nextAddr ∧ e.2.mFont < p.nextAddr

instance (p : Process) : Decidable p.wellFormed := by
  unfold Process.wellFormed
  infer_instance

/-- A toolkit for sample runs: widgets of one cell, every check passes. -/
def sampleToolkit : Toolkit where
  newWidget := fun w h _ _ _ => ⟨w, h, 1, 1, w, h, [], 7⟩
  glewInitOk := true
  glErrorAfterInit := false
  getGLContextHandle := 11
  getDisplayHandle := 12
  resizePixelBuffers := fun w => w
  defaultMap := fun t => t + 1000
  defaultLen := fun _ => 256
  freshMat4 := ⟨⟨0, 0, 0, 0⟩, ⟨0, 0, 0, 0⟩, ⟨0, 0, 0, 0⟩, ⟨0, 0, 0, 0⟩⟩
  checkGLOk := true

/-- The first window of a sample process, built without a parent. -/
def sampleFirst : Process × Except Exception WindowImpl :=
  window_impl.window_impl sampleToolkit Process.start 640 480 "first" none false

/-- The sample process once the first window lives at the address `100`. -/
def sampleProcess : Process :=
  match sampleFirst with
  | (p, .ok w) => { p with windows := [(100, w)], nextAddr := 101 }
  | (p, .error _) => p

/-- The first window of the sample process, field by field. -/
def sampleFirstWindow : WindowImpl :=
  ⟨0, 1, ⟨640, 480, 1, 1, 640, 480, [Mat4.identity], 7⟩, 2, 11, 12, 3, 1003, 256, 4⟩

/-- A codec and GPU for sample runs: the file name decides the format, the file
content none; bitmaps of 32 bits with rows padded to 8 bytes. -/
def sampleSaveContext : SaveContext where
  FreeImage_GetFileType := fun _ => .FIF_UNKNOWN
  FreeImage_GetFIFFromFilename := fun path =>
    if path = "a.png" then .FIF_PNG
    else if path = "a.bmp" then .FIF_BMP
    else if path = "a.jpg" then .FIF_JPEG
    else .FIF_UNKNOWN
  FreeImage_Allocate := fun w h _ => some ⟨(4 * w + 7) / 8 * 8, List.replicate ((4 * w + 7) / 8 * 8 * h) 0⟩
  FI_RGBA_RED := 2
  FI_RGBA_GREEN := 1
  FI_RGBA_BLUE := 0
  FI_RGBA_ALPHA := 3
  glMapBuffer := fun _ => none

/-- A window for sample runs. -/
def sampleWindow : WindowImpl :=
  ⟨0, 1, ⟨2, 2, 1, 1, 2, 2, [Mat4.identity], 7⟩, 2, 11, 12, 3, 1003, 256, 4⟩

/-- A surface for sample runs: 3 x 4 points of `float`, markers on, with a
VAO `5` cached for the window `1`. -/
def sampleSurface : SurfaceImpl :=
  { mNumXPoints := 3
    mNumYPoints := 4
    mDataType := .GL_FLOAT
    mIsPVCOn := false
    mIsPVAOn := false
    mMarkerType := 1
    mIBO := 23
    mIBOSize := 16
    mMarkerProgram := 31
    mSurfProgram := 32
    mMarkerMatIndex := 0
    mMarkerPointIndex := 0
    mMarkerColorIndex := 1
    mMarkerAlphaIndex := 2
    mMarkerPVCIndex := 1
    mMarkerPVAIndex := 2
    mMarkerTypeIndex := 3
    mMarkerColIndex := 4
    mSurfMatIndex := 0
    mSurfRangeIndex := 1
    mSurfPointIndex := 0
    mSurfColorIndex := 1
    mSurfAlphaIndex := 2
    mSurfPVCIndex := 2
    mSurfPVAIndex := 3
    mVAOMap := [(1, 5)]
    mVBO := some 20
    mCBO := some 21
    mABO := some 22
    mVBOSize := 144
    mCBOSize := 144
    mABOSize := 48
    mColor := ⟨9 / 10, 5 / 10, 6 / 10, 1⟩
    mRange := ⟨0, 1, 0, 1, 0, 1⟩
    mLegend := "" }

/-- An environment for sample constructions of a surface: the element type
codes `0 .. 6` stand for `s8, u8, s32, u32, f32, s16, u16`. -/
def sampleSurfaceEnv : SurfaceEnv where
  dtype2gl := fun t =>
    match t with
    | 0 => .GL_BYTE
    | 1 => .GL_UNSIGNED_BYTE
    | 2 => .GL_INT
    | 3 => .GL_UNSIGNED_INT
    | 4 => .GL_FLOAT
    | 5 => .GL_SHORT
    | 6 => .GL_UNSIGNED_SHORT
    | n => .GL_OTHER n
  initShaders := fun _ fs => if fs = "marker_fs" then 31 else 32
  glGetUniformLocation := fun _ _ => 0
  glGetAttribLocation := fun _ _ => 0
  createBuffer := fun k _ _ => 20 + k
  mRange := ⟨0, 1, 0, 1, 0, 1⟩

/-- The bytes of the four pixels of a 2 x 2 frame, for sample runs. -/
def sampleFrame : List Nat :=
  [10, 11, 12, 13, 20, 21, 22, 23, 30, 31, 32, 33, 40, 41, 42, 43]

/-- A bitmap of 2 x 2 pixels with rows of 12 bytes, every byte `99`. -/
def sampleBitmap : Bitmap := ⟨12, List.replicate 24 99⟩

/-- A codec and GPU for sample runs whose pixel buffer maps to `sampleFrame`
and whose allocator returns `sampleBitmap`. -/
def sampleMappedContext : SaveContext :=
  { sampleSaveContext with
    FreeImage_Allocate := fun _ _ _ => some sampleBitmap
    glMapBuffer := fun _ => some sampleFrame }

end Forge

/-! # Properties -/

namespace Forge

open surface_impl

/-! ## The normalisation transform -/

theorem scaleOffsetImage_eq (r : Range6) (x y z : ℚ) :
    scaleOffsetImage r x y z =
      ⟨graphScaleWith (fun a b => a / b) (r.xmax - r.xmin) *
          (x + (-1 + -r.xmin * graphScaleWith (fun a b => a / b) (r.xmax - r.xmin))),
        -1 * graphScaleWith (fun a b => a / b) (r.ymax - r.ymin) *
          (y + (-1 + -r.ymin * graphScaleWith (fun a b => a / b) (r.ymax - r.ymin))),
        graphScaleWith (fun a b => a / b) (r.zmax - r.zmin) *
          (z + (-1 + -r.zmin * graphScaleWith (fun a b => a / b) (r.zmax - r.zmin))),
        1⟩ := by
  simp only [scaleOffsetImage, computeTransformMat, computeTransformMatWith, graphScalesWith,
    glmScale, glmTranslate, Mat4.mul, Mat4.mulVec, Mat4.identity, Vec4.add, Vec4.smul]
  congr 1 <;> ring

theorem graphScaleWith_of_le (dv : ℚ → ℚ → ℚ) (range : ℚ) (h : 1 / 1000 ≤ |range|) :
    graphScaleWith dv range = dv 2 range := by
  unfold graphScaleWith
  rw [if_neg (not_lt.mpr h)]

theorem range_ne_zero (range : ℚ) (h : 1 / 1000 ≤ |range|) : range ≠ 0 := by
  intro h0
  rw [h0, abs_zero] at h
  norm_num at h

/-- C1, as stated, fails: on the data range `[0, 1]` of every axis, which is
wider than `1e-3`, the scale and offset part of the transform sends the
minimum `0` to `-2` on X and on Z and to `2` on Y, and the maximum `1` to
`0`, not to `-1` and `+1`. -/
theorem C1_min_max_not_sent_to_unit_interval :
    (1 : ℚ) / 1000 ≤ |1 - 0| ∧
    scaleOffsetImage ⟨0, 1, 0, 1, 0, 1⟩ 0 0 0 = ⟨-2, 2, -2, 1⟩ ∧
    scaleOffsetImage ⟨0, 1, 0, 1, 0, 1⟩ 1 1 1 = ⟨0, 0, 0, 1⟩ ∧
    ¬ ((scaleOffsetImage ⟨0, 1, 0, 1, 0, 1⟩ 0 0 0).x = -1 ∧
        (scaleOffsetImage ⟨0, 1, 0, 1, 0, 1⟩ 1 1 1).x = 1) := by
  have h : (1 : ℚ) / 1000 ≤ |1 - 0| := by norm_num
  have e0 : scaleOffsetImage ⟨0, 1, 0, 1, 0, 1⟩ 0 0 0 = ⟨-2, 2, -2, 1⟩ := by
    rw [scaleOffsetImage_eq]
    simp only [graphScaleWith_of_le _ _ h]
    norm_num
  have e1 : scaleOffsetImage ⟨0, 1, 0, 1, 0, 1⟩ 1 1 1 = ⟨0, 0, 0, 1⟩ := by
    rw [scaleOffsetImage_eq]
    simp only [graphScaleWith_of_le _ _ h]
    norm_num
  refine ⟨h, e0, e1, ?_⟩
  rw [e0, e1]
  norm_num

/-- C1, amended: for each axis whose range satisfies `|max - min| >= 1e-3`,
the scale and offset part of the transform (`MODEL` and `pView` the identity,
exact arithmetic) maps the data range onto a span of length 2: the image of
`max` minus the image of `min` is `2` on X and on Z and `-2` on Y, whose scale
is sign-flipped. -/
theorem C1_range_mapped_to_span_of_two (r : Range6) (x y z : ℚ) :
    (1 / 1000 ≤ |r.xmax - r.xmin| →
      (scaleOffsetImage r r.xmax y z).x - (scaleOffsetImage r r.xmin y z).x = 2) ∧
    (1 / 1000 ≤ |r.ymax - r.ymin| →
      (scaleOffsetImage r x r.ymax z).y - (scaleOffsetImage r x r.ymin z).y = -2) ∧
    (1 / 1000 ≤ |r.zmax - r.zmin| →
      (scaleOffsetImage r x y r.zmax).z - (scaleOffsetImage r x y r.zmin).z = 2) := by
  refine ⟨?_, ?_, ?_⟩ <;> intro h <;> have hne := range_ne_zero _ h <;>
    simp only [scaleOffsetImage_eq, graphScaleWith_of_le _ _ h] <;> field_simp <;> ring

/-- Witness of C1 amended: the ranges `[0, 1]`, `[-3, 5]` and `[2, 2.5]`. -/
theorem C1_range_mapped_to_span_of_two_witness :
    ((1 : ℚ) / 1000 ≤ |1 - 0| ∧ (1 : ℚ) / 1000 ≤ |5 - (-3)| ∧ (1 : ℚ) / 1000 ≤ |5 / 2 - 2|) ∧
    (scaleOffsetImage ⟨0, 1, -3, 5, 2, 5 / 2⟩ 1 0 0).x -
      (scaleOffsetImage ⟨0, 1, -3, 5, 2, 5 / 2⟩ 0 0 0).x = 2 ∧
    (scaleOffsetImage ⟨0, 1, -3, 5, 2, 5 / 2⟩ 0 5 0).y -
      (scaleOffsetImage ⟨0, 1, -3, 5, 2, 5 / 2⟩ 0 (-3) 0).y = -2 ∧
    (scaleOffsetImage ⟨0, 1, -3, 5, 2, 5 / 2⟩ 0 0 (5 / 2)).z -
      (scaleOffsetImage ⟨0, 1, -3, 5, 2, 5 / 2⟩ 0 0 2).z = 2 := by
  have hx : (1 : ℚ) / 1000 ≤ |1 - 0| := by norm_num
  have hy : (1 : ℚ) / 1000 ≤ |5 - (-3)| := by norm_num
  have hz : (1 : ℚ) / 1000 ≤ |5 / 2 - 2| := by norm_num [abs_of_pos]
  have t := C1_range_mapped_to_span_of_two ⟨0, 1, -3, 5, 2, 5 / 2⟩ 0 0 0
  exact ⟨⟨hx, hy, hz⟩, t.1 hx, t.2.1 hy, t.2.2 hz⟩

/-- C2: for every axis whose computed range `range = mRange[max] - mRange[min]`
(the `float` difference the guard tests, whatever the subtraction `sub`
rounds to) satisfies `|range| < 1e-3`, the computed `graph_scale` is exactly
`1`, whatever the division operator does: the division is not evaluated. So
it is for `max = min`, where the difference is `0`, and for `max` slightly
below `min`; where the subtraction is exact, the computed range is
`max - min` itself. -/
theorem C2_degenerate_range_scale_is_one (sub dv : ℚ → ℚ → ℚ) (r : Range6) :
    (|sub r.xmax r.xmin| < 1 / 1000 → (graphScalesWith sub dv r).x = 1) ∧
    (|sub r.ymax r.ymin| < 1 / 1000 → (graphScalesWith sub dv r).y = 1) ∧
    (|sub r.zmax r.zmin| < 1 / 1000 → (graphScalesWith sub dv r).z = 1) ∧
    (sub r.xmax r.xmin = 0 → sub r.ymax r.ymin = 0 → sub r.zmax r.zmin = 0 →
      graphScalesWith sub dv r = ⟨1, 1, 1⟩) ∧
    (sub r.xmax r.xmin = r.xmax - r.xmin → |r.xmax - r.xmin| < 1 / 1000 →
      (graphScalesWith sub dv r).x = 1) ∧
    (sub r.ymax r.ymin = r.ymax - r.ymin → |r.ymax - r.ymin| < 1 / 1000 →
      (graphScalesWith sub dv r).y = 1) ∧
    (sub r.zmax r.zmin = r.zmax - r.zmin → |r.zmax - r.zmin| < 1 / 1000 →
      (graphScalesWith sub dv r).z = 1) := by
  have hzero : |(0 : ℚ)| < 1 / 1000 := by norm_num
  refine ⟨?_, ?_, ?_, ?_, ?_, ?_, ?_⟩
  · intro h
    simp only [graphScalesWith, graphScaleWith, if_pos h]
  · intro h
    simp only [graphScalesWith, graphScaleWith, if_pos h]
  · intro h
    simp only [graphScalesWith, graphScaleWith, if_pos h]
  · intro hx hy hz
    simp only [graphScalesWith, graphScaleWith, hx, hy, hz, if_pos hzero]
  · intro e h
    simp only [graphScalesWith, graphScaleWith, e, if_pos h]
  · intro e h
    simp only [graphScalesWith, graphScaleWith, e, if_pos h]
  · intro e h
    simp only [graphScalesWith, graphScaleWith, e, if_pos h]

/-- Witness of C2: a constant X range, a Y range with `max` slightly below
`min`, a Z range slightly wide, the exact subtraction and a division operator
that returns `7`. -/
theorem C2_degenerate_range_scale_is_one_witness :
    (|(5 : ℚ) - 5| < 1 / 1000 ∧ |(-1 / 2000 : ℚ) - 0| < 1 / 1000 ∧
      |(3 + 1 / 2000 : ℚ) - 3| < 1 / 1000) ∧
    (graphScalesWith (fun a b => a - b) (fun _ _ => 7)
      ⟨5, 5, 0, -1 / 2000, 3, 3 + 1 / 2000⟩).x = 1 ∧
    (graphScalesWith (fun a b => a - b) (fun _ _ => 7)
      ⟨5, 5, 0, -1 / 2000, 3, 3 + 1 / 2000⟩).y = 1 ∧
    (graphScalesWith (fun a b => a - b) (fun _ _ => 7)
      ⟨5, 5, 0, -1 / 2000, 3, 3 + 1 / 2000⟩).z = 1 := by
  have hx : |(5 : ℚ) - 5| < 1 / 1000 := by norm_num
  have hy : |(-1 / 2000 : ℚ) - 0| < 1 / 1000 := by norm_num [abs_lt]
  have hz : |(3 + 1 / 2000 : ℚ) - 3| < 1 / 1000 := by norm_num [abs_lt]
  have t := C2_degenerate_range_scale_is_one (fun a b => a - b) (fun _ _ => 7)
    ⟨5, 5, 0, -1 / 2000, 3, 3 + 1 / 2000⟩
  exact ⟨⟨hx, hy, hz⟩, t.1 hx, t.2.1 hy, t.2.2.1 hz⟩

/-! ## The index buffer of the surface -/

theorem step_even (C r c : Nat) (h : c + 1 < 2 * C) (hc : c % 2 = 0) :
    toUShort ((gridEntryAt C r c : Int) + C) = gridEntryAt C r (c+1) := by
  unfold toUShort gridEntryAt
  split_ifs <;> omega
theorem step_odd (C r c : Nat) (h : c + 1 < 2 * C) (hc : c % 2 = 1) :
    toUShort ((gridEntryAt C r c : Int) - (if r % 2 = 0 then (C : Int) - 1 else (C : Int) + 1)) = gridEntryAt C r (c+1) := by
  unfold toUShort gridEntryAt
  split_ifs <;> omega
theorem step_last (C r c : Nat) (h : c + 1 = 2 * C) :
    gridEntryAt C r c = gridEntryAt C (r + 1) 0 := by
  unfold gridEntryAt
  have : (r + 1) * C = r * C + C := by ring
  rw [this]
  have h0 : (0:Nat) % 2 = 0 := rfl
  simp only [h0, if_true]
  split_ifs <;> omega

theorem parity_i (c r C : Nat) :
    toUShort (wrapInt ((c : Int) + wrapInt ((r : Int) * wrapInt ((C : Int) * 2)))) % 2 = c % 2 := by
  have h : (r : Int) * wrapInt ((C : Int) * 2) = 2 * ((r : Int) * (wrapInt ((C : Int) * 2) / 2)) := by
    have : wrapInt ((C : Int) * 2) = 2 * (wrapInt ((C : Int) * 2) / 2) := by
      unfold wrapInt; omega
    conv_lhs => rw [this]
    ring
  rw [h]
  generalize (r : Int) * (wrapInt ((C : Int) * 2) / 2) = m
  unfold toUShort wrapInt; omega

theorem innerLoop_run (C r : Nat) (hC : C ≤ 32767) :
    ∀ (d c fuel : Nat) (out : List Nat), c + d = 2 * C → d < fuel →
      innerLoop C r fuel c (if d = 0 then gridEntryAt C (r + 1) 0 else gridEntryAt C r c) out
        = some (gridEntryAt C (r + 1) 0, out ++ (List.range' c d).map (gridEntryAt C r)) := by
  intro d
  induction d with
  | zero =>
    intro c fuel out hcd hf
    obtain ⟨f, rfl⟩ : ∃ f, fuel = f + 1 := ⟨fuel - 1, by omega⟩
    have hnot : ¬ ((c : Int) < (C : Int) * 2) := by omega
    simp [innerLoop, hnot]
  | succ d ih =>
    intro c fuel out hcd hf
    obtain ⟨f, rfl⟩ : ∃ f, fuel = f + 1 := ⟨fuel - 1, by omega⟩
    have hlt : (c : Int) < (C : Int) * 2 := by omega
    have hc1 : toUShort ((c : Int) + 1) = c + 1 := by unfold toUShort; omega
    rw [innerLoop]
    simp only [hlt, if_true, hc1, parity_i, Nat.succ_ne_zero, if_false]
    have hnext : (if (c : Int) = (C : Int) * 2 - 1 then gridEntryAt C r c
        else if c % 2 = 0 then toUShort ((gridEntryAt C r c : Int) + (C : Int))
        else toUShort ((gridEntryAt C r c : Int) -
          (if r % 2 = 0 then (C : Int) - 1 else (C : Int) + 1)))
        = (if d = 0 then gridEntryAt C (r + 1) 0 else gridEntryAt C r (c + 1)) := by
      by_cases hd : d = 0
      · have : (c : Int) = (C : Int) * 2 - 1 := by omega
        simp only [this, if_true, hd]
        exact step_last C r c (by omega)
      · have : ¬ ((c : Int) = (C : Int) * 2 - 1) := by omega
        simp only [this, if_false, hd]
        by_cases hp : c % 2 = 0
        · simp only [hp, if_true]
          exact step_even C r c (by omega) hp
        · simp only [hp, if_false]
          exact step_odd C r c (by omega) (by omega)
    rw [hnext, ih (c + 1) f (out ++ [gridEntryAt C r c]) (by omega) (by omega)]
    simp [List.range'_succ]

theorem gridEntry_row (C r c : Nat) (hc : c < 2 * C) :
    gridEntry C (2 * C * r + c) = gridEntryAt C r c := by
  unfold gridEntry
  have hpos : 0 < 2 * C := by omega
  rw [Nat.mul_add_div hpos, Nat.mul_add_mod, Nat.div_eq_of_lt hc, Nat.mod_eq_of_lt hc, Nat.add_zero]

theorem gridList_row (C r : Nat) :
    gridList C (2 * C * (r + 1))
      = gridList C (2 * C * r) ++ (List.range' 0 (2 * C)).map (gridEntryAt C r) := by
  unfold gridList
  have : 2 * C * (r + 1) = 2 * C * r + 2 * C := by ring
  rw [this, List.range_add, List.map_append, List.map_map, ← List.range_eq_range']
  congr 1
  apply List.map_congr_left
  intro c hc
  rw [List.mem_range] at hc
  exact gridEntry_row C r c hc

theorem outerLoop_run (R C : Nat) (hR : R < 65536) (hC : C ≤ 32767) :
    ∀ (d r fuel : Nat), r + d + 1 = R ∨ (d = 0 ∧ R = 0 ∧ r = 0) → d + 2 * C + 2 ≤ fuel →
      outerLoop R C fuel r (gridEntryAt C r 0) (gridList C (2 * C * r))
        = some (gridList C (2 * C * (R - 1))) := by
  intro d
  induction d with
  | zero =>
    intro r fuel hrd hf
    obtain ⟨f, rfl⟩ : ∃ f, fuel = f + 1 := ⟨fuel - 1, by omega⟩
    have hnot : ¬ ((r : Int) < (R : Int) - 1) := by omega
    have hr : r = R - 1 := by omega
    rw [outerLoop, if_neg hnot, hr]
  | succ d ih =>
    intro r fuel hrd hf
    obtain ⟨f, rfl⟩ : ∃ f, fuel = f + 1 := ⟨fuel - 1, by omega⟩
    have hlt : (r : Int) < (R : Int) - 1 := by omega
    have hr1 : toUShort ((r : Int) + 1) = r + 1 := by unfold toUShort; omega
    have hin := innerLoop_run C r hC (2 * C) 0 f (gridList C (2 * C * r)) (by omega) (by omega)
    by_cases hC0 : C = 0
    · subst hC0
      have h0 : gridEntryAt 0 (r + 1) 0 = gridEntryAt 0 r 0 := by
        unfold gridEntryAt; split_ifs <;> omega
      simp only [Nat.mul_zero, if_true, h0] at hin
      rw [outerLoop]
      simp only [hlt, if_true, hin, hr1]
      have := ih (r + 1) f (by omega) (by omega)
      simpa [h0] using this
    · have hne : ¬ (2 * C = 0) := by omega
      simp only [hne, if_false] at hin
      rw [outerLoop]
      simp only [hlt, if_true, hin, hr1, ← gridList_row]
      exact ih (r + 1) f (by omega) (by omega)

theorem generateGridIndices_eq (R C fuel : Nat) (hR : R < 65536) (hC : C ≤ 32767)
    (hf : R + 2 * C + 2 ≤ fuel) :
    generateGridIndices fuel R C = some (gridList C (2 * C * (R - 1))) := by
  unfold generateGridIndices
  have h00 : gridEntryAt C 0 0 = 0 := by unfold gridEntryAt; simp
  have hl : gridList C (2 * C * 0) = [] := by simp [gridList]
  have := outerLoop_run R C hR hC (R - 1) 0 fuel (by omega) (by omega)
  rw [h00, hl] at this
  exact this

theorem innerLoop_mono (cols r : Nat) :
    ∀ (fuel c idx : Nat) (out : List Nat) (res : Nat × List Nat),
      innerLoop cols r fuel c idx out = some res →
      innerLoop cols r (fuel + 1) c idx out = some res := by
  intro fuel
  induction fuel with
  | zero =>
    intro c idx out res h
    simp [innerLoop] at h
  | succ f ih =>
    intro c idx out res h
    rw [innerLoop] at h ⊢
    by_cases hc : (c : Int) < (cols : Int) * 2
    · rw [if_pos hc] at h ⊢
      exact ih _ _ _ _ h
    · rw [if_neg hc] at h ⊢
      exact h

theorem outerLoop_mono (rows cols : Nat) :
    ∀ (fuel r idx : Nat) (out res : List Nat),
      outerLoop rows cols fuel r idx out = some res →
      outerLoop rows cols (fuel + 1) r idx out = some res := by
  intro fuel
  induction fuel with
  | zero =>
    intro r idx out res h
    simp [outerLoop] at h
  | succ f ih =>
    intro r idx out res h
    rw [outerLoop] at h ⊢
    by_cases hr : (r : Int) < (rows : Int) - 1
    · rw [if_pos hr] at h ⊢
      cases hin : innerLoop cols r f 0 idx out with
      | none => simp [hin] at h
      | some x =>
        rw [hin] at h
        rw [innerLoop_mono cols r f 0 idx out x hin]
        exact ih _ _ _ _ h
    · rw [if_neg hr] at h ⊢
      exact h

theorem generateGridIndices_mono (rows cols fuel fuel' : Nat) (out : List Nat)
    (hle : fuel ≤ fuel') (h : generateGridIndices fuel rows cols = some out) :
    generateGridIndices fuel' rows cols = some out := by
  obtain ⟨d, rfl⟩ : ∃ d, fuel' = fuel + d := ⟨fuel' - fuel, by omega⟩
  induction d with
  | zero => exact h
  | succ d ih => exact outerLoop_mono rows cols (fuel + d) 0 0 [] out (ih (by omega))

theorem generateGridIndices_unique (R C fuel : Nat) (out : List Nat) (hR : R < 65536)
    (hC : C ≤ 32767) (h : generateGridIndices fuel R C = some out) :
    out = gridList C (2 * C * (R - 1)) := by
  have h1 := generateGridIndices_mono R C fuel (fuel + (R + 2 * C + 2)) out (by omega) h
  rw [generateGridIndices_eq R C _ hR hC (by omega)] at h1
  exact (Option.some.inj h1).symm

theorem gridList_length (C n : Nat) : (gridList C n).length = n := by
  simp [gridList]

theorem gridList_getElem? (C n j : Nat) (h : j < n) :
    (gridList C n)[j]? = some (gridEntry C j) := by
  simp [gridList, List.getElem?_range h]

theorem mIBOSize_eq (R C : Nat) (hR1 : 1 ≤ R) (hR : R < 65536) (hC : C ≤ 32767) :
    mIBOSize R C = 2 * C * (R - 1) := by
  unfold mIBOSize
  have h1 : (2 * C) % 4294967296 = 2 * C := Nat.mod_eq_of_lt (by omega)
  have h2 : (R + 4294967296 - 1) % 4294967296 = R - 1 := by omega
  have h3 : 2 * C * (R - 1) ≤ 65534 * 65534 := Nat.mul_le_mul (by omega) (by omega)
  rw [h1, h2, Nat.mod_eq_of_lt (by omega)]

/-- C3: for `R >= 1` and `C <= 32767` (and `R` an `unsigned short`),
`generateGridIndices(R, C, out)` returns, given enough fuel, always with the
same entries, and writes exactly `2*C*(R-1)` of them; this is the count
`mIBOSize` that the constructor of the surface computes for `R` and `C`
points, and the constructor's call is the same call. -/
theorem C3_index_count (R C : Nat) (hR1 : 1 ≤ R) (hR : R < 65536) (hC : C ≤ 32767) :
    ∃ out : List Nat,
      (∀ fuel, R + 2 * C + 2 ≤ fuel → generateGridIndices fuel R C = some out) ∧
      (∀ fuel out', generateGridIndices fuel R C = some out' → out' = out) ∧
      (∀ fuel, R + 2 * C + 2 ≤ fuel → constructorIndices fuel R C = some out) ∧
      out.length = 2 * C * (R - 1) ∧
      out.length = mIBOSize R C := by
  refine ⟨gridList C (2 * C * (R - 1)), ?_, ?_, ?_, gridList_length _ _, ?_⟩
  · intro fuel hf
    exact generateGridIndices_eq R C fuel hR hC hf
  · intro fuel out' h
    exact generateGridIndices_unique R C fuel out' hR hC h
  · intro fuel hf
    unfold constructorIndices
    rw [Nat.mod_eq_of_lt hR, Nat.mod_eq_of_lt (by omega : C < 65536)]
    exact generateGridIndices_eq R C fuel hR hC hf
  · rw [gridList_length, mIBOSize_eq R C hR1 hR hC]

/-- Witness of C3: a grid of 3 x 4 points gives 16 entries. -/
theorem C3_index_count_witness :
    ∃ out : List Nat,
      (∀ fuel, 3 + 2 * 4 + 2 ≤ fuel → generateGridIndices fuel 3 4 = some out) ∧
      (∀ fuel out', generateGridIndices fuel 3 4 = some out' → out' = out) ∧
      (∀ fuel, 3 + 2 * 4 + 2 ≤ fuel → constructorIndices fuel 3 4 = some out) ∧
      out.length = 2 * 4 * (3 - 1) ∧
      out.length = mIBOSize 3 4 :=
  C3_index_count 3 4 (by decide) (by decide) (by decide)

theorem gridEntryAt_lt (R C r c : Nat) (hr : r + 1 < R) (hc : c < 2 * C) :
    gridEntryAt C r c < R * C := by
  unfold gridEntryAt
  have h1 : (r + 2) * C ≤ R * C := Nat.mul_le_mul_right C (by omega)
  have h2 : (r + 2) * C = r * C + 2 * C := by ring
  split_ifs <;> omega

theorem gridEntry_lt (R C j : Nat) (hC : 1 ≤ C) (hj : j < 2 * C * (R - 1)) :
    gridEntry C j < R * C := by
  unfold gridEntry
  have hpos : 0 < 2 * C := by omega
  have hr : j / (2 * C) < R - 1 := (Nat.div_lt_iff_lt_mul hpos).mpr (by rw [Nat.mul_comm]; exact hj)
  have hr1 : j / (2 * C) + 1 < R := by
    generalize j / (2 * C) = q at hr
    omega
  exact gridEntryAt_lt R C (j / (2 * C)) (j % (2 * C)) hr1 (Nat.mod_lt _ hpos)

/-- C4: for `R >= 2` and `1 <= C <= 32767`, `generateGridIndices(R, C, out)`
returns, given enough fuel, and every entry it writes (16-bit unsigned
arithmetic) is strictly less than `R*C`. -/
theorem C4_every_index_in_grid (R C : Nat) (_hR2 : 2 ≤ R) (hR : R < 65536) (hC1 : 1 ≤ C)
    (hC : C ≤ 32767) :
    ∃ out : List Nat,
      (∀ fuel, R + 2 * C + 2 ≤ fuel → generateGridIndices fuel R C = some out) ∧
      ∀ x ∈ out, x < R * C := by
  refine ⟨gridList C (2 * C * (R - 1)), ?_, ?_⟩
  · intro fuel hf
    exact generateGridIndices_eq R C fuel hR hC hf
  · intro x hx
    simp only [gridList, List.mem_map, List.mem_range] at hx
    obtain ⟨j, hj, rfl⟩ := hx
    exact gridEntry_lt R C j hC1 hj

/-- Witness of C4: a grid of 3 x 4 points. -/
theorem C4_every_index_in_grid_witness :
    ∃ out : List Nat,
      (∀ fuel, 3 + 2 * 4 + 2 ≤ fuel → generateGridIndices fuel 3 4 = some out) ∧
      ∀ x ∈ out, x < 3 * 4 :=
  C4_every_index_in_grid 3 4 (by decide) (by decide) (by decide) (by decide)

theorem gridEntryAt_succ_ne (C r c : Nat) (hC : C ≤ 32767) (hc : c + 1 < 2 * C) :
    gridEntryAt C r c ≠ gridEntryAt C r (c + 1) := by
  unfold gridEntryAt
  split_ifs <;> omega

theorem gridEntry_succ_eq_iff (C j : Nat) (hC1 : 1 ≤ C) (hC : C ≤ 32767) :
    gridEntry C j = gridEntry C (j + 1) ↔ 2 * C ∣ j + 1 := by
  have hpos : 0 < 2 * C := by omega
  have hc : j % (2 * C) < 2 * C := Nat.mod_lt _ hpos
  have hj : 2 * C * (j / (2 * C)) + j % (2 * C) = j := Nat.div_add_mod j (2 * C)
  generalize j / (2 * C) = r at hj
  generalize j % (2 * C) = c at hj hc
  subst hj
  rw [gridEntry_row C r c hc]
  by_cases hlast : c + 1 = 2 * C
  · have e : 2 * C * r + c + 1 = 2 * C * (r + 1) + 0 := by
      rw [Nat.mul_add, Nat.mul_one]; omega
    rw [e, gridEntry_row C (r + 1) 0 hpos]
    constructor
    · intro _
      exact ⟨r + 1, by omega⟩
    · intro _
      exact step_last C r c hlast
  · have hlt : c + 1 < 2 * C := by omega
    have e : 2 * C * r + c + 1 = 2 * C * r + (c + 1) := by omega
    rw [e, gridEntry_row C r (c + 1) hlt]
    constructor
    · intro h
      exact absurd h (gridEntryAt_succ_ne C r c hC hlt)
    · intro h
      exfalso
      have hmod : (2 * C * r + (c + 1)) % (2 * C) = 0 := Nat.mod_eq_zero_of_dvd h
      rw [Nat.mul_add_mod, Nat.mod_eq_of_lt hlt] at hmod
      omega

/-- C5: for `R >= 2` and `1 <= C <= 32767`, `generateGridIndices(R, C, out)`
returns, given enough fuel, and two consecutive entries of its output, at the
positions `j` and `j+1`, are equal exactly when `j+1` is a multiple of `2*C`,
that is where the last entry of a strip row meets the first of the next. -/
theorem C5_repeats_only_at_row_boundaries (R C : Nat) (_hR2 : 2 ≤ R) (hR : R < 65536)
    (hC1 : 1 ≤ C) (hC : C ≤ 32767) :
    ∃ out : List Nat,
      (∀ fuel, R + 2 * C + 2 ≤ fuel → generateGridIndices fuel R C = some out) ∧
      ∀ j, j + 1 < out.length → (out[j]? = out[j + 1]? ↔ 2 * C ∣ j + 1) := by
  refine ⟨gridList C (2 * C * (R - 1)), ?_, ?_⟩
  · intro fuel hf
    exact generateGridIndices_eq R C fuel hR hC hf
  · intro j hj
    rw [gridList_length] at hj
    rw [gridList_getElem? C _ j (by omega), gridList_getElem? C _ (j + 1) hj, Option.some_inj]
    exact gridEntry_succ_eq_iff C j hC1 hC

/-- Witness of C5: a grid of 4 x 2 points, whose buffer
`0 2 1 3 3 5 2 4 4 6 5 7` repeats an entry at the positions 3, 4 and 7, 8. -/
theorem C5_repeats_only_at_row_boundaries_witness :
    ∃ out : List Nat,
      (∀ fuel, 4 + 2 * 2 + 2 ≤ fuel → generateGridIndices fuel 4 2 = some out) ∧
      ∀ j, j + 1 < out.length → (out[j]? = out[j + 1]? ↔ 2 * 2 ∣ j + 1) :=
  C5_repeats_only_at_row_boundaries 4 2 (by decide) (by decide) (by decide) (by decide)

theorem gridEntryAt_exact (R C r c : Nat) (hRC : R * C ≤ 65536) (hr : r + 1 < R)
    (hc : c < 2 * C) :
    gridEntryAt C r c = (if r % 2 = 0 then r * C + c / 2 else r * C + (C - 1 - c / 2)) +
      (if c % 2 = 0 then 0 else C) := by
  have h := gridEntryAt_lt R C r c hr hc
  unfold gridEntryAt at h ⊢
  have h1 : (r + 2) * C ≤ R * C := Nat.mul_le_mul_right C (by omega)
  have h2 : (r + 2) * C = r * C + 2 * C := by ring
  apply Nat.mod_eq_of_lt
  split_ifs <;> omega

theorem window3_gridList (C n j : Nat) (h : j + 2 < n) :
    window3 (gridList C n) j = some (gridEntry C j, gridEntry C (j + 1), gridEntry C (j + 2)) := by
  unfold window3
  rw [gridList_getElem? C n j (by omega), gridList_getElem? C n (j + 1) (by omega),
    gridList_getElem? C n (j + 2) h]

theorem row_position_lt (R C r c : Nat) (hr : r + 1 < R) (hc : c < 2 * C) :
    2 * C * r + c < 2 * C * (R - 1) := by
  have h1 : 2 * C * (r + 1) ≤ 2 * C * (R - 1) := Nat.mul_le_mul_left _ (by omega)
  have h2 : 2 * C * (r + 1) = 2 * C * r + 2 * C := by ring
  omega


theorem row_window_entries (R C r c : Nat) (hRC : R * C ≤ 65536) (hr : r + 1 < R)
    (hc : c + 2 < 2 * C) :
    gridEntry C (2 * C * r + c) =
        (if r % 2 = 0 then r * C + c / 2 else r * C + (C - 1 - c / 2)) +
          (if c % 2 = 0 then 0 else C) ∧
    gridEntry C (2 * C * r + c + 1) =
        (if r % 2 = 0 then r * C + (c + 1) / 2 else r * C + (C - 1 - (c + 1) / 2)) +
          (if (c + 1) % 2 = 0 then 0 else C) ∧
    gridEntry C (2 * C * r + c + 2) =
        (if r % 2 = 0 then r * C + (c + 2) / 2 else r * C + (C - 1 - (c + 2) / 2)) +
          (if (c + 2) % 2 = 0 then 0 else C) := by
  refine ⟨?_, ?_, ?_⟩
  · rw [gridEntry_row C r c (by omega), gridEntryAt_exact R C r c hRC hr (by omega)]
  · rw [Nat.add_assoc, gridEntry_row C r (c + 1) (by omega),
      gridEntryAt_exact R C r (c + 1) hRC hr (by omega)]
  · rw [Nat.add_assoc, gridEntry_row C r (c + 2) (by omega),
      gridEntryAt_exact R C r (c + 2) hRC hr (by omega)]

theorem row_window_isCellTriangle (R C r c : Nat) (hRC : R * C ≤ 65536) (hr : r + 1 < R)
    (hc : c + 2 < 2 * C) :
    isCellTriangle C r (if r % 2 = 0 then c / 2 else C - 2 - c / 2)
      (gridEntry C (2 * C * r + c)) (gridEntry C (2 * C * r + c + 1))
      (gridEntry C (2 * C * r + c + 2)) := by
  obtain ⟨e0, e1, e2⟩ := row_window_entries R C r c hRC hr hc
  rw [e0, e1, e2]
  have hC : (r + 1) * C = r * C + C := by ring
  unfold isCellTriangle cellCorners
  simp only [List.mem_cons, List.mem_singleton, List.not_mem_nil, or_false, hC]
  split_ifs <;> omega

theorem window3_some_lt (out : List Nat) (j : Nat) (t : Nat × Nat × Nat)
    (h : window3 out j = some t) : j + 2 < out.length := by
  unfold window3 at h
  by_contra hlt
  have hnone : out[j + 2]? = none := List.getElem?_eq_none (by omega)
  rw [hnone] at h
  split at h <;> simp_all

theorem row_four_entries (R C r m : Nat) (hRC : R * C ≤ 65536) (hr : r + 1 < R)
    (hm : m + 1 < C) :
    gridEntry C (2 * C * r + 2 * m) = (if r % 2 = 0 then r * C + m else r * C + (C - 1 - m)) ∧
    gridEntry C (2 * C * r + 2 * m + 1) =
      (if r % 2 = 0 then r * C + m + C else r * C + (C - 1 - m) + C) ∧
    gridEntry C (2 * C * r + 2 * m + 1 + 1) =
      (if r % 2 = 0 then r * C + m + 1 else r * C + (C - 2 - m)) ∧
    gridEntry C (2 * C * r + 2 * m + 1 + 2) =
      (if r % 2 = 0 then r * C + m + 1 + C else r * C + (C - 2 - m) + C) := by
  refine ⟨?_, ?_, ?_, ?_⟩
  · rw [gridEntry_row C r (2 * m) (by omega), gridEntryAt_exact R C r (2 * m) hRC hr (by omega)]
    split_ifs <;> omega
  · rw [Nat.add_assoc, gridEntry_row C r (2 * m + 1) (by omega),
      gridEntryAt_exact R C r (2 * m + 1) hRC hr (by omega)]
    split_ifs <;> omega
  · rw [Nat.add_assoc, Nat.add_assoc, gridEntry_row C r (2 * m + (1 + 1)) (by omega),
      gridEntryAt_exact R C r (2 * m + (1 + 1)) hRC hr (by omega)]
    split_ifs <;> omega
  · rw [Nat.add_assoc, Nat.add_assoc, gridEntry_row C r (2 * m + (1 + 2)) (by omega),
      gridEntryAt_exact R C r (2 * m + (1 + 2)) hRC hr (by omega)]
    split_ifs <;> omega

theorem cell_covered (R C r k : Nat) (hRC : R * C ≤ 65536) (hr : r + 1 < R)
    (hk : k + 1 < C) :
    ∃ j, j + 3 < 2 * C * (R - 1) ∧
      isCellTriangle C r k (gridEntry C j) (gridEntry C (j + 1)) (gridEntry C (j + 1 + 1)) ∧
      isCellTriangle C r k (gridEntry C (j + 1)) (gridEntry C (j + 1 + 1))
        (gridEntry C (j + 1 + 2)) ∧
      ∀ v ∈ cellCorners C r k,
        v ∈ [gridEntry C j, gridEntry C (j + 1), gridEntry C (j + 1 + 1),
          gridEntry C (j + 1), gridEntry C (j + 1 + 1), gridEntry C (j + 1 + 2)] := by
  have hC : (r + 1) * C = r * C + C := by ring
  by_cases hpar : r % 2 = 0
  · obtain ⟨e0, e1, e2, e3⟩ := row_four_entries R C r k hRC hr hk
    refine ⟨2 * C * r + 2 * k, ?_, ?_, ?_, ?_⟩
    · have := row_position_lt R C r (2 * k + 3) hr (by omega)
      omega
    all_goals
      simp only [e0, e1, e2, e3, isCellTriangle, cellCorners, List.mem_cons,
        List.mem_singleton, List.not_mem_nil, or_false, hC, if_pos hpar, true_or, or_true,
        true_and, and_true]
      omega
  · obtain ⟨e0, e1, e2, e3⟩ := row_four_entries R C r (C - 2 - k) hRC hr (by omega)
    refine ⟨2 * C * r + 2 * (C - 2 - k), ?_, ?_, ?_, ?_⟩
    · have := row_position_lt R C r (2 * (C - 2 - k) + 3) hr (by omega)
      omega
    all_goals
      simp only [e0, e1, e2, e3, isCellTriangle, cellCorners, List.mem_cons,
        List.mem_singleton, List.not_mem_nil, or_false, hC, if_neg hpar, true_or, or_true,
        true_and, and_true]
      omega

theorem row_window_cell_or_repeat (R C j : Nat) (hRC : R * C ≤ 65536) (hC2 : 2 ≤ C)
    (hC : C ≤ 32767) (hj : j + 2 < 2 * C * (R - 1)) :
    (∃ r k, r < R - 1 ∧ k < C - 1 ∧
      isCellTriangle C r k (gridEntry C j) (gridEntry C (j + 1)) (gridEntry C (j + 2))) ∨
    gridEntry C j = gridEntry C (j + 1) ∨ gridEntry C (j + 1) = gridEntry C (j + 2) ∨
    gridEntry C j = gridEntry C (j + 2) := by
  by_cases h1 : 2 * C ∣ j + 1
  · exact Or.inr (Or.inl ((gridEntry_succ_eq_iff C j (by omega) hC).mpr h1))
  by_cases h2 : 2 * C ∣ j + 1 + 1
  · exact Or.inr (Or.inr (Or.inl ((gridEntry_succ_eq_iff C (j + 1) (by omega) hC).mpr h2)))
  left
  have hpos : 0 < 2 * C := by omega
  have hc : j % (2 * C) < 2 * C := Nat.mod_lt _ hpos
  have hq : j / (2 * C) < R - 1 :=
    (Nat.div_lt_iff_lt_mul hpos).mpr (by rw [Nat.mul_comm]; omega)
  have hdm : 2 * C * (j / (2 * C)) + j % (2 * C) = j := Nat.div_add_mod j (2 * C)
  generalize j / (2 * C) = r at hdm hq
  generalize j % (2 * C) = c at hdm hc
  subst hdm
  have hc1 : c + 1 ≠ 2 * C := by
    intro e
    exact h1 ⟨r + 1, by rw [Nat.mul_add, Nat.mul_one]; omega⟩
  have hc2 : c + 2 ≠ 2 * C := by
    intro e
    exact h2 ⟨r + 1, by rw [Nat.mul_add, Nat.mul_one]; omega⟩
  have hlt : c + 2 < 2 * C := by omega
  refine ⟨r, if r % 2 = 0 then c / 2 else C - 2 - c / 2, hq, ?_,
    row_window_isCellTriangle R C r c hRC (by omega) hlt⟩
  split_ifs <;> omega

/-- C6: for `R >= 2` and `2 <= C <= 32767` with `R*C <= 65536`, the buffer
that `generateGridIndices(R, C, out)` returns (given enough fuel) covers the
grid as a triangle strip: every grid cell `(r, k)` with `r < R-1` and
`k < C-1` has two windows of three consecutive entries, each made of three
distinct corners of the cell, whose union is the four corners; and every
window of three consecutive entries is such a cell triangle or repeats a
vertex. -/
theorem C6_strip_covers_grid (R C : Nat) (_hR2 : 2 ≤ R) (hR : R < 65536) (hC2 : 2 ≤ C)
    (hC : C ≤ 32767) (hRC : R * C ≤ 65536) :
    ∃ out : List Nat,
      (∀ fuel, R + 2 * C + 2 ≤ fuel → generateGridIndices fuel R C = some out) ∧
      (∀ r k, r < R - 1 → k < C - 1 →
        ∃ j1 j2 t1 t2, j1 ≠ j2 ∧ window3 out j1 = some t1 ∧ window3 out j2 = some t2 ∧
          isCellTriangle C r k t1.1 t1.2.1 t1.2.2 ∧
          isCellTriangle C r k t2.1 t2.2.1 t2.2.2 ∧
          ∀ v ∈ cellCorners C r k, v ∈ [t1.1, t1.2.1, t1.2.2, t2.1, t2.2.1, t2.2.2]) ∧
      (∀ j t, window3 out j = some t →
        (∃ r k, r < R - 1 ∧ k < C - 1 ∧ isCellTriangle C r k t.1 t.2.1 t.2.2) ∨
        t.1 = t.2.1 ∨ t.2.1 = t.2.2 ∨ t.1 = t.2.2) := by
  refine ⟨gridList C (2 * C * (R - 1)), ?_, ?_, ?_⟩
  · intro fuel hf
    exact generateGridIndices_eq R C fuel hR hC hf
  · intro r k hr hk
    obtain ⟨j, hj, ht1, ht2, hcov⟩ := cell_covered R C r k hRC (by omega) (by omega)
    exact ⟨j, j + 1, _, _, by omega, window3_gridList C _ j (by omega),
      window3_gridList C _ (j + 1) (by omega), ht1, ht2, hcov⟩
  · intro j t ht
    have hlt := window3_some_lt _ j t ht
    rw [gridList_length] at hlt
    rw [window3_gridList C _ j hlt, Option.some_inj] at ht
    subst ht
    exact row_window_cell_or_repeat R C j hRC hC2 hC hlt

/-- Witness of C6: a grid of 3 x 4 points. -/
theorem C6_strip_covers_grid_witness :
    ∃ out : List Nat,
      (∀ fuel, 3 + 2 * 4 + 2 ≤ fuel → generateGridIndices fuel 3 4 = some out) ∧
      (∀ r k, r < 3 - 1 → k < 4 - 1 →
        ∃ j1 j2 t1 t2, j1 ≠ j2 ∧ window3 out j1 = some t1 ∧ window3 out j2 = some t2 ∧
          isCellTriangle 4 r k t1.1 t1.2.1 t1.2.2 ∧
          isCellTriangle 4 r k t2.1 t2.2.1 t2.2.2 ∧
          ∀ v ∈ cellCorners 4 r k, v ∈ [t1.1, t1.2.1, t1.2.2, t2.1, t2.2.1, t2.2.2]) ∧
      (∀ j t, window3 out j = some t →
        (∃ r k, r < 3 - 1 ∧ k < 4 - 1 ∧ isCellTriangle 4 r k t.1 t.2.1 t.2.2) ∨
        t.1 = t.2.1 ∨ t.2.1 = t.2.2 ∨ t.1 = t.2.2) :=
  C6_strip_covers_grid 3 4 (by decide) (by decide) (by decide) (by decide) (by decide)

/-! ## The window: grid, identifiers, sharing, saving -/

theorem vectorFill_resize {α : Type} (v : List α) (n : Nat) (value x : α) :
    vectorFill (vectorResize v n value) x = List.replicate n x := by
  unfold vectorFill vectorResize
  split_ifs with h
  · rw [List.map_const', List.length_take, Nat.min_eq_left h]
  · rw [List.map_const', List.length_append, List.length_replicate]
    congr 1
    omega

theorem wrapInt_of_range (x : Int) (h1 : -2147483648 ≤ x) (h2 : x ≤ 2147483647) :
    wrapInt x = x := by
  unfold wrapInt
  omega

theorem grid_eq (WHITE : Vec4) (fresh : Mat4) (mWindow : Widget) (rows cols : Int)
    (hr : rows ≠ 0) (hc : cols ≠ 0) (hsize : 0 ≤ wrapInt (rows * cols)) :
    (window_impl.grid WHITE fresh mWindow rows cols).2 =
      some ⟨mWindow.mWidth, mWindow.mHeight, rows, cols, Int.tdiv mWindow.mWidth cols,
        Int.tdiv mWindow.mHeight rows,
        List.replicate (wrapInt (rows * cols)).toNat Mat4.identity, mWindow.mFramePBO⟩ := by
  have h0 : ¬ (cols = 0 ∨ rows = 0) := by omega
  have hneg : ¬ (wrapInt (rows * cols) < 0) := by omega
  simp only [window_impl.grid, window_impl.resetViewMatrices, h0, hneg, if_false,
    vectorFill_resize]

/-- C7, as stated, fails: `rows = cols = 65536` are both `>= 1`, the `int`
product `mRows*mCols` is `2^32` reduced to 32 bits, which is `0`, and
`grid(65536, 65536)` returns with an empty collection, not with `2^32`
identity matrices. -/
theorem C7_grid_65536_by_65536_leaves_no_matrix :
    (1 : Int) ≤ 65536 ∧ wrapInt (65536 * 65536) = 0 ∧
    ∃ w : Widget,
      (window_impl.grid ⟨1, 1, 1, 1⟩ sampleToolkit.freshMat4 sampleWindow.mWidget
        65536 65536).2 = some w ∧
      w.mViewMatrices = [] ∧ (w.mViewMatrices.length : Int) ≠ 65536 * 65536 := by
  have hsize : wrapInt (65536 * 65536) = 0 := by decide
  refine ⟨by decide, hsize, _,
    grid_eq _ _ _ 65536 65536 (by decide) (by decide) (by decide), ?_, ?_⟩
  · show List.replicate (wrapInt (65536 * 65536)).toNat Mat4.identity = []
    rw [hsize]
    rfl
  · show ((List.replicate (wrapInt (65536 * 65536)).toNat Mat4.identity).length : Int) ≠ _
    rw [hsize]
    decide

/-- C7, amended: for `rows >= 1` and `cols >= 1` with `rows*cols <= 2^31 - 1`
(the product is an `int`) and every prior widget state (so every prior
content of the view-matrix collection), `grid(rows, cols)` returns and leaves
a collection of exactly `rows*cols` entries, every one the identity matrix;
it also records `rows` and `cols`. -/
theorem C7_grid_resets_view_matrices (WHITE : Vec4) (fresh : Mat4) (mWindow : Widget)
    (rows cols : Int) (hr : 1 ≤ rows) (hc : 1 ≤ cols) (hsize : rows * cols ≤ 2147483647) :
    ∃ w : Widget, (window_impl.grid WHITE fresh mWindow rows cols).2 = some w ∧
      (w.mViewMatrices.length : Int) = rows * cols ∧
      (∀ m ∈ w.mViewMatrices, m = Mat4.identity) ∧
      w.mViewMatrices = List.replicate (rows * cols).toNat Mat4.identity ∧
      w.mRows = rows ∧ w.mCols = cols := by
  have hpos : 0 ≤ rows * cols := Int.mul_nonneg (by omega) (by omega)
  have hw : wrapInt (rows * cols) = rows * cols := wrapInt_of_range _ (by omega) hsize
  have hgrid := grid_eq WHITE fresh mWindow rows cols (by omega) (by omega) (by omega)
  rw [hw] at hgrid
  refine ⟨_, hgrid, ?_, ?_, rfl, rfl, rfl⟩
  · simp only [List.length_replicate]
    exact Int.toNat_of_nonneg hpos
  · intro m hm
    exact List.eq_of_mem_replicate hm

/-- Witness of C7: a grid of 2 x 3 cells on a window whose collection held
one matrix: six identity matrices. -/
theorem C7_grid_resets_view_matrices_witness :
    ∃ w : Widget,
      (window_impl.grid ⟨1, 1, 1, 1⟩ sampleToolkit.freshMat4 sampleWindow.mWidget 2 3).2
        = some w ∧
      (w.mViewMatrices.length : Int) = 2 * 3 ∧
      (∀ m ∈ w.mViewMatrices, m = Mat4.identity) ∧
      w.mViewMatrices = List.replicate ((2 : Int) * 3).toNat Mat4.identity ∧
      w.mRows = 2 ∧ w.mCols = 3 :=
  C7_grid_resets_view_matrices ⟨1, 1, 1, 1⟩ sampleToolkit.freshMat4 sampleWindow.mWidget 2 3
    (by decide) (by decide) (by decide)

theorem trackerAfter_eq (n : Nat) (h : n < 2147483648) : trackerAfter n = (n : Int) := by
  induction n with
  | zero => rfl
  | succ n ih =>
    have e := ih (by omega)
    simp only [trackerAfter, getNextUniqueId, e, wrapInt]
    omega

theorem kthUniqueId_eq (k : Nat) (h1 : 1 ≤ k) (h : k ≤ 2147483648) :
    kthUniqueId k = (k : Int) - 1 := by
  unfold kthUniqueId getNextUniqueId
  rw [trackerAfter_eq (k - 1) (by omega)]
  omega

theorem window_impl_tracker (env : Toolkit) (p : Process) (W H : Int) (title : String)
    (pWindow : WeakPtr) (invisible : Bool) :
    (window_impl.window_impl env p W H title pWindow invisible).1.wndUnqIdTracker
      = (getNextUniqueId p.wndUnqIdTracker).2 := by
  unfold window_impl.window_impl
  cases hl : lock p pWindow <;>
    simp only [lock, Process.alloc, window_impl.MakeContextCurrent] at hl ⊢ <;>
    simp only [hl] <;> split_ifs <;> (try split) <;> rfl

theorem window_impl_ok (env : Toolkit) (p : Process) (W H : Int) (title : String)
    (pWindow : WeakPtr) (invisible : Bool) (win : WindowImpl)
    (h : (window_impl.window_impl env p W H title pWindow invisible).2 = .ok win) :
    win.mID = (getNextUniqueId p.wndUnqIdTracker).1 ∧ win.mWindow = p.nextAddr ∧
    (∀ o, lock p pWindow = some o →
      win.mGLEWContext = o.mGLEWContext ∧ win.mCMap = o.mCMap) ∧
    (lock p pWindow = none →
      win.mGLEWContext = p.nextAddr + 1 ∧ win.mCMap = p.nextAddr + 2) := by
  unfold window_impl.window_impl at h
  cases hl : lock p pWindow <;>
    simp only [lock, Process.alloc, window_impl.MakeContextCurrent] at hl h <;>
    simp only [hl] at h <;> split_ifs at h <;> (try split at h) <;>
    first
    | (simp at h; done)
    | (simp only [Except.ok.injEq] at h
       subst h
       simp)

/-- C8: `getNextUniqueId` counts: absent `int` overflow (at most `2^31`
calls) the `k`-th call of a process returns `k-1`. A window constructed at
the `i`-th call and a window constructed at a later `j`-th call, with any
parent reference each (the first window included), take their `mID` from
these calls and have distinct IDs. -/
theorem C8_unique_window_ids (i j : Nat) (hi : 1 ≤ i) (hij : i < j) (hj : j ≤ 2147483648)
    (env env' : Toolkit) (p p' : Process) (W H W' H' : Int) (title title' : String)
    (pWindow pWindow' : WeakPtr) (invisible invisible' : Bool) (a b : WindowImpl)
    (hp : p.wndUnqIdTracker = trackerAfter (i - 1))
    (hp' : p'.wndUnqIdTracker = trackerAfter (j - 1))
    (ha : (window_impl.window_impl env p W H title pWindow invisible).2 = .ok a)
    (hb : (window_impl.window_impl env' p' W' H' title' pWindow' invisible').2 = .ok b) :
    kthUniqueId i = (i : Int) - 1 ∧ kthUniqueId j = (j : Int) - 1 ∧
    a.mID = kthUniqueId i ∧ b.mID = kthUniqueId j ∧ a.mID ≠ b.mID ∧
    (window_impl.window_impl env p W H title pWindow invisible).1.wndUnqIdTracker = trackerAfter i := by
  have ki := kthUniqueId_eq i hi (by omega)
  have kj := kthUniqueId_eq j (by omega) hj
  have ea : a.mID = kthUniqueId i := by
    rw [(window_impl_ok env p W H title pWindow invisible a ha).1, hp]
    rfl
  have eb : b.mID = kthUniqueId j := by
    rw [(window_impl_ok env' p' W' H' title' pWindow' invisible' b hb).1, hp']
    rfl
  refine ⟨ki, kj, ea, eb, ?_, ?_⟩
  · rw [ea, eb, ki, kj]
    omega
  · rw [window_impl_tracker, hp]
    obtain ⟨n, rfl⟩ : ∃ n, i = n + 1 := ⟨i - 1, by omega⟩
    rfl

/-- Witness of C8: the first window of a process, and a second one built
with the first as its parent. -/
theorem C8_unique_window_ids_witness :
    sampleFirst.2 = .ok sampleFirstWindow ∧
    lock sampleProcess (some 100) = some sampleFirstWindow ∧
    ∃ b, (window_impl.window_impl sampleToolkit sampleProcess 10 10 "second" (some 100) true).2
        = .ok b ∧
      sampleFirstWindow.mID = 0 ∧ b.mID = 1 ∧ sampleFirstWindow.mID ≠ b.mID := by
  have ha : (window_impl.window_impl sampleToolkit Process.start 640 480 "first" none false).2
      = .ok sampleFirstWindow := rfl
  have hb : (window_impl.window_impl sampleToolkit sampleProcess 10 10 "second" (some 100) true).2
      = .ok ⟨1, 101, ⟨10, 10, 1, 1, 10, 10, [Mat4.identity], 7⟩, 2, 11, 12, 3, 1003, 256,
        102⟩ := rfl
  have t := C8_unique_window_ids 1 2 (by decide) (by decide) (by decide) sampleToolkit
    sampleToolkit Process.start sampleProcess 640 480 10 10 "first" "second" none (some 100)
    false true _ _ rfl rfl ha hb
  exact ⟨ha, rfl, _, hb, rfl, rfl, t.2.2.2.2.1⟩

/-- C9: a window constructed with a parent reference that is still live has
the parent's GLEW context pointer and the parent's colormap table pointer;
constructed with an empty or expired reference, it has a GLEW context and a
colormap table that are new, not null, and held by no existing window. -/
theorem C9_parent_sharing (env : Toolkit) (p : Process) (W H : Int) (title : String)
    (pWindow : WeakPtr) (invisible : Bool) (win : WindowImpl) (hwf : p.wellFormed)
    (h : (window_impl.window_impl env p W H title pWindow invisible).2 = .ok win) :
    (∀ parent, lock p pWindow = some parent →
      win.mGLEWContext = parent.mGLEWContext ∧ win.mCMap = parent.mCMap) ∧
    (lock p pWindow = none →
      win.mGLEWContext ≠ 0 ∧ win.mCMap ≠ 0 ∧
      p.nextAddr ≤ win.mGLEWContext ∧ p.nextAddr ≤ win.mCMap ∧
      ∀ e ∈ p.windows, win.mGLEWContext ≠ e.2.mGLEWContext ∧ win.mCMap ≠ e.2.mCMap) := by
  obtain ⟨_, _, hlive, hnone⟩ := window_impl_ok env p W H title pWindow invisible win h
  refine ⟨hlive, ?_⟩
  intro hl
  obtain ⟨hg, hm⟩ := hnone hl
  refine ⟨by omega, by omega, by omega, by omega, ?_⟩
  intro e he
  have := hwf.2 e he
  omega

/-- Witness of C9: in the sample process a window built on the live first
window shares its context `2` and its colormap table `3`; a window built on
an expired reference gets the new addresses `102` and `103`. -/
theorem C9_parent_sharing_witness :
    sampleProcess.wellFormed ∧
    lock sampleProcess (some 100) = some sampleFirstWindow ∧
    lock sampleProcess (some 55) = none ∧
    (∃ b, (window_impl.window_impl sampleToolkit sampleProcess 10 10 "second" (some 100) true).2
        = .ok b ∧
      b.mGLEWContext = sampleFirstWindow.mGLEWContext ∧ b.mCMap = sampleFirstWindow.mCMap) ∧
    (∃ c, (window_impl.window_impl sampleToolkit sampleProcess 10 10 "third" (some 55) true).2
        = .ok c ∧
      ∀ e ∈ sampleProcess.windows, c.mGLEWContext ≠ e.2.mGLEWContext ∧ c.mCMap ≠ e.2.mCMap) := by
  have hwf : sampleProcess.wellFormed := by decide
  have hb : (window_impl.window_impl sampleToolkit sampleProcess 10 10 "second" (some 100) true).2
      = .ok ⟨1, 101, ⟨10, 10, 1, 1, 10, 10, [Mat4.identity], 7⟩, 2, 11, 12, 3, 1003, 256,
        102⟩ := rfl
  have hc : (window_impl.window_impl sampleToolkit sampleProcess 10 10 "third" (some 55) true).2
      = .ok ⟨1, 101, ⟨10, 10, 1, 1, 10, 10, [Mat4.identity], 7⟩, 102, 11, 12, 103, 1103, 256,
        104⟩ := rfl
  have tb := C9_parent_sharing sampleToolkit sampleProcess 10 10 "second" (some 100) true _
    hwf hb
  have tc := C9_parent_sharing sampleToolkit sampleProcess 10 10 "third" (some 55) true _
    hwf hc
  exact ⟨hwf, rfl, rfl, ⟨_, hb, tb.1 sampleFirstWindow rfl⟩, ⟨_, hc, (tc.2 rfl).2.2.2.2⟩⟩

theorem detectFormat_calls (fi : SaveContext) (path : String) :
    ∀ c ∈ (window_impl.detectFormat fi path).2,
      c.isGpuCall = false ∧ c.isBitmapAllocation = false := by
  intro c hc
  unfold window_impl.detectFormat at hc
  split_ifs at hc <;>
    simp only [List.mem_cons, List.mem_singleton, List.not_mem_nil, or_false] at hc <;>
    rcases hc with rfl | rfl <;> exact ⟨rfl, rfl⟩

theorem saveFrameBuffer_rejected (fi : SaveContext) (self : WindowImpl) (path : String)
    (h : ¬ ((window_impl.detectFormat fi path).1 = .FIF_BMP ∨
      (window_impl.detectFormat fi path).1 = .FIF_PNG)) :
    window_impl.saveFrameBuffer fi self (some path) =
      ([Effect.FI_Init, Effect.FreeImage_SetOutputMessage] ++
          (window_impl.detectFormat fi path).2,
        if (window_impl.detectFormat fi path).1 = .FIF_UNKNOWN then
          .error (.Error "window_impl::saveFrameBuffer" 398
            "Freeimage: unrecognized image format" .FG_ERR_FREEIMAGE_UNKNOWN_FORMAT)
        else
          .error (.ArgumentError "window_impl::saveFrameBuffer" 403 1
            "Supports only bmp and png as of now")) := by
  unfold window_impl.saveFrameBuffer
  by_cases hu : (window_impl.detectFormat fi path).1 = .FIF_UNKNOWN
  · simp only [hu, if_true]
  · simp only [hu, if_false, h, not_false_eq_true, if_true]

/-- C10: `saveFrameBuffer` fails fast. For a null path it throws an argument
error and makes no call at all; for a path on which both format detectors
return unknown it throws the unknown-format error; for a path whose detected
format is known but neither BMP nor PNG it throws an argument error. In the
three cases no bitmap is allocated and no OpenGL call is made before the
throw. -/
theorem C10_saveFrameBuffer_fails_fast (fi : SaveContext) (self : WindowImpl) (path : String) :
    window_impl.saveFrameBuffer fi self none =
      ([], .error (.ArgumentError "window_impl::saveFrameBuffer" 381 1 "Empty path string")) ∧
    (fi.FreeImage_GetFileType path = .FIF_UNKNOWN →
      fi.FreeImage_GetFIFFromFilename path = .FIF_UNKNOWN →
      (window_impl.saveFrameBuffer fi self (some path)).2 =
          .error (.Error "window_impl::saveFrameBuffer" 398
            "Freeimage: unrecognized image format" .FG_ERR_FREEIMAGE_UNKNOWN_FORMAT) ∧
        ∀ c ∈ (window_impl.saveFrameBuffer fi self (some path)).1,
          c.isGpuCall = false ∧ c.isBitmapAllocation = false) ∧
    ((window_impl.detectFormat fi path).1 ≠ .FIF_UNKNOWN →
      (window_impl.detectFormat fi path).1 ≠ .FIF_BMP →
      (window_impl.detectFormat fi path).1 ≠ .FIF_PNG →
      (window_impl.saveFrameBuffer fi self (some path)).2 =
          .error (.ArgumentError "window_impl::saveFrameBuffer" 403 1
            "Supports only bmp and png as of now") ∧
        ∀ c ∈ (window_impl.saveFrameBuffer fi self (some path)).1,
          c.isGpuCall = false ∧ c.isBitmapAllocation = false) := by
  have hcalls : ∀ c ∈ [Effect.FI_Init, Effect.FreeImage_SetOutputMessage] ++
      (window_impl.detectFormat fi path).2,
      c.isGpuCall = false ∧ c.isBitmapAllocation = false := by
    intro c hc
    rw [List.mem_append] at hc
    rcases hc with hc | hc
    · simp only [List.mem_cons, List.mem_singleton, List.not_mem_nil, or_false] at hc
      rcases hc with rfl | rfl <;> exact ⟨rfl, rfl⟩
    · exact detectFormat_calls fi path c hc
  refine ⟨rfl, ?_, ?_⟩
  · intro h1 h2
    have hd : (window_impl.detectFormat fi path).1 = .FIF_UNKNOWN := by
      unfold window_impl.detectFormat
      rw [if_pos h1]
      exact h2
    have hrej := saveFrameBuffer_rejected fi self path (by rw [hd]; decide)
    rw [hrej, if_pos hd]
    exact ⟨rfl, hcalls⟩
  · intro hu hb hp
    have hrej := saveFrameBuffer_rejected fi self path (by
      intro h
      rcases h with h | h
      · exact hb h
      · exact hp h)
    rw [hrej, if_neg hu]
    exact ⟨rfl, hcalls⟩

/-- Witness of C10: with the sample codec the paths `""` and
`"file.unknownext"` are of no known format, and `"a.jpg"` is a JPEG file. -/
theorem C10_saveFrameBuffer_fails_fast_witness :
    (∀ c ∈ (window_impl.saveFrameBuffer sampleSaveContext sampleWindow (some "")).1,
      c.isGpuCall = false ∧ c.isBitmapAllocation = false) ∧
    (window_impl.saveFrameBuffer sampleSaveContext sampleWindow (some "file.unknownext")).2 =
      .error (.Error "window_impl::saveFrameBuffer" 398
        "Freeimage: unrecognized image format" .FG_ERR_FREEIMAGE_UNKNOWN_FORMAT) ∧
    (window_impl.saveFrameBuffer sampleSaveContext sampleWindow (some "a.jpg")).2 =
      .error (.ArgumentError "window_impl::saveFrameBuffer" 403 1
        "Supports only bmp and png as of now") :=
  ⟨((C10_saveFrameBuffer_fails_fast sampleSaveContext sampleWindow "").2.1 rfl (by decide)).2,
    ((C10_saveFrameBuffer_fails_fast sampleSaveContext sampleWindow "file.unknownext").2.1 rfl
      (by decide)).1,
    ((C10_saveFrameBuffer_fails_fast sampleSaveContext sampleWindow "a.jpg").2.2 (by decide)
      (by decide) (by decide)).1⟩

section SurfacePasses

/-! ## The VAO cache and the draw steps of the surface and of the scatter -/

theorem mapFind_append_absent (m : VAOMap) (k k' : Int) (v : Nat) (h : mapFind m k = none) :
    mapFind (m ++ [(k, v)]) k' = if k' = k then some v else mapFind m k' := by
  unfold mapFind at h ⊢
  rw [List.find?_append]
  by_cases hk : k' = k
  · subst hk
    rw [if_pos rfl]
    cases hf : List.find? (fun e => e.1 == k') m with
    | none => simp
    | some e => rw [hf] at h; simp at h
  · rw [if_neg hk]
    cases hf : List.find? (fun e => e.1 == k') m with
    | none =>
      have : (k == k') = false := by simpa using fun e => hk e.symm
      simp [this]
    | some e => simp

theorem bindResources_cached (vao : Nat) (s : SurfaceImpl) (w : Int) (v : Nat)
    (h : mapFind s.mVAOMap w = some v) :
    bindResources vao s w = ([Effect.glBindVertexArray v], s) := by
  simp [bindResources, mapIndex, h]

theorem bindResources_new (vao : Nat) (s : SurfaceImpl) (w : Int)
    (h : mapFind s.mVAOMap w = none) :
    (bindResources vao s w).2 = { s with mVAOMap := s.mVAOMap ++ [(w, vao)] } ∧
    genCount (bindResources vao s w).1 = 1 ∧
    (bindResources vao s w).1.getLast? = some (Effect.glBindVertexArray vao) := by
  have hf : mapFind (s.mVAOMap ++ [(w, vao)]) w = some vao := by
    rw [mapFind_append_absent _ _ _ _ h, if_pos rfl]
  simp [bindResources, mapIndex, mapAssign, h, hf, genCount]

theorem genCount_append (a b : List Effect) :
    genCount (a ++ b) = genCount a + genCount b := by
  induction a with
  | nil => simp [genCount]
  | cons e rest ih =>
    rw [List.cons_append]
    cases e <;> simp only [genCount] <;> (rw [ih]; try omega)

theorem drawModes_append (a b : List Effect) :
    drawModes (a ++ b) = drawModes a ++ drawModes b := by
  induction a with
  | nil => simp [drawModes]
  | cons e rest ih =>
    rw [List.cons_append]
    cases e <;> simp only [drawModes] <;> (rw [ih]; try rfl)

theorem bindResources_mapFind (vao : Nat) (s : SurfaceImpl) (w : Int) :
    ∃ v, mapFind (bindResources vao s w).2.mVAOMap w = some v := by
  cases h : mapFind s.mVAOMap w with
  | some v => exact ⟨v, by rw [bindResources_cached vao s w v h]; exact h⟩
  | none =>
    refine ⟨vao, ?_⟩
    rw [(bindResources_new vao s w h).1]
    show mapFind (s.mVAOMap ++ [(w, vao)]) w = some vao
    rw [mapFind_append_absent _ _ _ _ h, if_pos rfl]

theorem bindResources_new_eq (vao : Nat) (s : SurfaceImpl) (w : Int)
    (h : mapFind s.mVAOMap w = none) :
    bindResources vao s w =
      ([Effect.glGenVertexArrays vao,
        Effect.glBindVertexArray vao,
        Effect.glEnableVertexAttribArray s.mSurfPointIndex,
        Effect.glBindBuffer .GL_ARRAY_BUFFER (s.mVBO.getD 0),
        Effect.glVertexAttribPointer s.mSurfPointIndex 3 s.mDataType,
        Effect.glEnableVertexAttribArray s.mSurfColorIndex,
        Effect.glBindBuffer .GL_ARRAY_BUFFER (s.mCBO.getD 0),
        Effect.glVertexAttribPointer s.mSurfColorIndex 3 .GL_FLOAT,
        Effect.glEnableVertexAttribArray s.mSurfAlphaIndex,
        Effect.glBindBuffer .GL_ARRAY_BUFFER (s.mABO.getD 0),
        Effect.glVertexAttribPointer s.mSurfAlphaIndex 1 .GL_FLOAT,
        Effect.glBindBuffer .GL_ELEMENT_ARRAY_BUFFER s.mIBO,
        Effect.glBindVertexArray 0,
        Effect.glBindVertexArray vao],
        { s with mVAOMap := s.mVAOMap ++ [(w, vao)] }) := by
  have hf : mapFind (s.mVAOMap ++ [(w, vao)]) w = some vao := by
    rw [mapFind_append_absent _ _ _ _ h, if_pos rfl]
  simp [bindResources, mapIndex, mapAssign, h, hf]

theorem renderGraph_cache (vao : Nat) (s : SurfaceImpl) (w : Int) (t : Mat4) :
    (renderGraph vao s w t).2 = (bindResources vao s w).2 ∧
    genCount (renderGraph vao s w t).1 = genCount (bindResources vao s w).1 := by
  cases h : mapFind s.mVAOMap w with
  | some v =>
    have h1 := bindResources_cached vao s w v h
    unfold renderGraph
    simp only [h1]
    split_ifs <;> exact ⟨rfl, rfl⟩
  | none =>
    have h1 := bindResources_new_eq vao s w h
    have hf : mapFind ({ s with mVAOMap := s.mVAOMap ++ [(w, vao)] } : SurfaceImpl).mVAOMap w
        = some vao := by
      show mapFind (s.mVAOMap ++ [(w, vao)]) w = some vao
      rw [mapFind_append_absent _ _ _ _ h, if_pos rfl]
    have h2 := bindResources_cached vao _ w vao hf
    unfold renderGraph
    simp only [h1, h2]
    split_ifs <;> exact ⟨rfl, rfl⟩

theorem bindResources_keeps (vao : Nat) (s : SurfaceImpl) (w k : Int) (v : Nat)
    (h : mapFind s.mVAOMap k = some v) :
    mapFind (bindResources vao s w).2.mVAOMap k = some v := by
  cases hw : mapFind s.mVAOMap w with
  | some x => rw [bindResources_cached vao s w x hw]; exact h
  | none =>
    rw [(bindResources_new vao s w hw).1]
    show mapFind (s.mVAOMap ++ [(w, vao)]) k = some v
    rw [mapFind_append_absent _ _ _ _ hw]
    by_cases hk : k = w
    · subst hk
      rw [hw] at h
      exact Option.noConfusion h
    · rw [if_neg hk]
      exact h

/-- C11: `bindResources(w)` on the VAO cache. When `w` has an entry, no VAO
is generated, the object (and so the map) is unchanged and the cached VAO is
bound. When `w` has no entry, exactly one VAO is generated and stored under
`w`, and every other window id keeps what it had. Hence after rendering into
the windows `a != b`, from any state, the map has an entry for `a` and one for
`b` (the two new VAOs when both windows were new), and rendering again into
`a` generates nothing and changes nothing. -/
theorem C11_vao_cache (vao : Nat) (s : SurfaceImpl) (w : Int) :
    (∀ v, mapFind s.mVAOMap w = some v →
      genCount (bindResources vao s w).1 = 0 ∧ (bindResources vao s w).2 = s ∧
      (bindResources vao s w).1 = [Effect.glBindVertexArray v]) ∧
    (mapFind s.mVAOMap w = none →
      genCount (bindResources vao s w).1 = 1 ∧
      mapFind (bindResources vao s w).2.mVAOMap w = some vao ∧
      ∀ w', w' ≠ w →
        mapFind (bindResources vao s w).2.mVAOMap w' = mapFind s.mVAOMap w') ∧
    (∀ (a b : Int) (va vb vc : Nat) (t : Mat4), a ≠ b →
      (∃ x y, mapFind (renderGraph vb (renderGraph va s a t).2 b t).2.mVAOMap a = some x ∧
        mapFind (renderGraph vb (renderGraph va s a t).2 b t).2.mVAOMap b = some y) ∧
      genCount (renderGraph vc (renderGraph vb (renderGraph va s a t).2 b t).2 a t).1 = 0 ∧
      (renderGraph vc (renderGraph vb (renderGraph va s a t).2 b t).2 a t).2 =
        (renderGraph vb (renderGraph va s a t).2 b t).2 ∧
      (mapFind s.mVAOMap a = none → mapFind s.mVAOMap b = none →
        mapFind (renderGraph vb (renderGraph va s a t).2 b t).2.mVAOMap a = some va ∧
        mapFind (renderGraph vb (renderGraph va s a t).2 b t).2.mVAOMap b = some vb)) := by
  have hnew : ∀ (x : Nat) (q : SurfaceImpl) (k : Int), mapFind q.mVAOMap k = none →
      ∀ k', mapFind (bindResources x q k).2.mVAOMap k' =
        if k' = k then some x else mapFind q.mVAOMap k' := by
    intro x q k hk k'
    rw [(bindResources_new x q k hk).1]
    exact mapFind_append_absent _ _ _ _ hk
  refine ⟨?_, ?_, ?_⟩
  · intro v h
    rw [bindResources_cached vao s w v h]
    exact ⟨rfl, rfl, rfl⟩
  · intro h
    refine ⟨(bindResources_new vao s w h).2.1, ?_, ?_⟩
    · rw [hnew vao s w h, if_pos rfl]
    · intro w' hw'
      rw [hnew vao s w h, if_neg hw']
  · intro a b va vb vc t hab
    have e1 := (renderGraph_cache va s a t).1
    have e2 := (renderGraph_cache vb (renderGraph va s a t).2 b t).1
    have e3 := renderGraph_cache vc (renderGraph vb (renderGraph va s a t).2 b t).2 a t
    obtain ⟨x, hx⟩ := bindResources_mapFind va s a
    rw [← e1] at hx
    have hx2 := bindResources_keeps vb (renderGraph va s a t).2 b a x hx
    rw [← e2] at hx2
    obtain ⟨y, hy⟩ := bindResources_mapFind vb (renderGraph va s a t).2 b
    rw [← e2] at hy
    have hc := bindResources_cached vc _ a x hx2
    refine ⟨⟨x, y, hx2, hy⟩, ?_, ?_, ?_⟩
    · rw [e3.2, hc]
      rfl
    · rw [e3.1, hc]
    · intro ha hb
      have hb1 : mapFind (renderGraph va s a t).2.mVAOMap b = none := by
        rw [e1, hnew va s a ha, if_neg (fun e => hab e.symm)]
        exact hb
      have ha1 : mapFind (renderGraph va s a t).2.mVAOMap a = some va := by
        rw [e1, hnew va s a ha, if_pos rfl]
      constructor
      · rw [e2, hnew vb _ b hb1, if_neg hab]
        exact ha1
      · rw [e2, hnew vb _ b hb1, if_pos rfl]

/-- Witness of C11: a surface with an entry for the window 1 only; binding for
the window 1 generates nothing, binding for the window 2 stores the new VAO
`9` and keeps the entry of the window 1. -/
theorem C11_vao_cache_witness :
    mapFind sampleSurface.mVAOMap 1 = some 5 ∧ mapFind sampleSurface.mVAOMap 2 = none ∧
    genCount (bindResources 9 sampleSurface 1).1 = 0 ∧
    (bindResources 9 sampleSurface 1).2 = sampleSurface ∧
    genCount (bindResources 9 sampleSurface 2).1 = 1 ∧
    mapFind (bindResources 9 sampleSurface 2).2.mVAOMap 2 = some 9 ∧
    mapFind (bindResources 9 sampleSurface 2).2.mVAOMap 1 = some 5 := by
  have h1 : mapFind sampleSurface.mVAOMap 1 = some 5 := by decide
  have h2 : mapFind sampleSurface.mVAOMap 2 = none := by decide
  have t1 := (C11_vao_cache 9 sampleSurface 1).1 5 h1
  have t2 := (C11_vao_cache 9 sampleSurface 2).2.1 h2
  exact ⟨h1, h2, t1.1, t1.2.1, t2.1, t2.2.1, (t2.2.2 1 (by decide)).trans h1⟩

theorem bindResources_drawModes (vao : Nat) (s : SurfaceImpl) (w : Int) :
    drawModes (bindResources vao s w).1 = [] := by
  cases h : mapFind s.mVAOMap w with
  | some v => rw [bindResources_cached vao s w v h]; rfl
  | none => rw [bindResources_new_eq vao s w h]; rfl

theorem bindResources_fields (vao : Nat) (s : SurfaceImpl) (w : Int) :
    (bindResources vao s w).2 =
      { s with mVAOMap := (bindResources vao s w).2.mVAOMap } := by
  cases h : mapFind s.mVAOMap w with
  | some v => rw [bindResources_cached vao s w v h]
  | none => rw [bindResources_new_eq vao s w h]

/-- C14: `scatter3_impl::renderGraph` is `surface_impl::renderGraph` with the
surface pass and the `CheckGL` brackets removed, run from the same state: it
issues the same calls and leaves the same object, for every state, window id
and transform. It is the marker pass of the surface, it updates the VAO cache
as `bindResources` does when the marker type is not `FG_MARKER_NONE` and not
at all otherwise, and every `glDrawElements` it issues has the mode
`GL_POINTS`: none has `GL_TRIANGLE_STRIP`, which the surface always
issues. -/
theorem C14_scatter3_is_marker_pass (vao : Nat) (s : SurfaceImpl) (w : Int) (t : Mat4) :
    scatter3_impl.renderGraph vao s w t = renderGraphRestricted false false vao s w t ∧
    surface_impl.renderGraph vao s w t = renderGraphRestricted true true vao s w t ∧
    scatter3_impl.renderGraph vao s w t = markerPass vao s w t ∧
    (scatter3_impl.renderGraph vao s w t).2 =
      (if s.mMarkerType ≠ FG_MARKER_NONE then (bindResources vao s w).2 else s) ∧
    (∀ mode ∈ drawModes (scatter3_impl.renderGraph vao s w t).1, mode = GLenum.GL_POINTS) ∧
    GLenum.GL_TRIANGLE_STRIP ∉ drawModes (scatter3_impl.renderGraph vao s w t).1 ∧
    GLenum.GL_TRIANGLE_STRIP ∈ drawModes (surface_impl.renderGraph vao s w t).1 := by
  have hscatter : scatter3_impl.renderGraph vao s w t = markerPass vao s w t := by
    unfold scatter3_impl.renderGraph markerPass
    split_ifs
    · simp only [unbindResources, List.append_assoc, List.cons_append, List.nil_append,
        List.singleton_append]
    · rfl
  have hmodes : drawModes (markerPass vao s w t).1 =
      if s.mMarkerType ≠ FG_MARKER_NONE then [GLenum.GL_POINTS] else [] := by
    unfold markerPass
    split_ifs
    · simp only [drawModes_append, bindResources_drawModes]
      rfl
    · rfl
  have hsurface : surface_impl.renderGraph vao s w t =
      renderGraphRestricted true true vao s w t := by
    have hf := bindResources_fields vao s w
    unfold surface_impl.renderGraph renderGraphRestricted surfacePass markerPass
    simp only [if_true, unbindResources]
    rw [hf]
    split_ifs <;>
      simp only [List.append_assoc, List.cons_append, List.nil_append, List.singleton_append,
        List.append_nil]
  refine ⟨?_, hsurface, hscatter, ?_, ?_, ?_, ?_⟩
  · rw [hscatter]
    simp [renderGraphRestricted]
  · rw [hscatter]
    unfold markerPass
    split_ifs <;> rfl
  · intro mode hm
    rw [hscatter, hmodes] at hm
    split_ifs at hm
    · exact List.mem_singleton.mp hm
    · exact absurd hm (List.not_mem_nil _)
  · rw [hscatter, hmodes]
    split_ifs <;> simp
  · have hpass : drawModes (surfacePass vao s w t).1 = [GLenum.GL_TRIANGLE_STRIP] := by
      unfold surfacePass
      simp only [drawModes_append, bindResources_drawModes]
      rfl
    rw [hsurface]
    simp only [renderGraphRestricted, if_true, drawModes_append, hpass]
    simp

end SurfacePasses

section SurfaceTypes

/-! ## The constructor of the surface -/

theorem surface_impl_never_raises (env : SurfaceEnv) (fuel X Y dataType : Nat)
    (marker : Int) (r : List Exception × Except Exception SurfaceImpl)
    (h : surface_impl.surface_impl env fuel X Y dataType marker = some r) :
    ∃ s, r.2 = .ok s := by
  unfold surface_impl.surface_impl at h
  simp only at h
  split at h
  · exact Option.noConfusion h
  · cases h
    exact ⟨_, rfl⟩

/-- C15, evaluated on the code: with the element type `s8`, whose GL
enumerant `GL_BYTE` is none of the six supported ones, the constructor builds
the `fg::TypeError` object in the `default` branch and drops it, as the
statement has no `throw`; it goes on and returns a surface for which no
vertex, colour or alpha buffer was created. -/
theorem C15_unsupported_type_is_not_rejected :
    sampleSurfaceEnv.dtype2gl 0 = GLenum.GL_BYTE ∧
    ∃ s : SurfaceImpl,
      surface_impl.surface_impl sampleSurfaceEnv 20 3 4 0 0 =
        some ([Exception.TypeError "surface_impl::surface_impl" 200 1 0], .ok s) ∧
      s.mDataType = GLenum.GL_BYTE ∧ s.mVBO = none ∧ s.mCBO = none ∧ s.mABO = none ∧
      s.mIBOSize = 16 ∧ s.mIBO = 23 :=
  ⟨rfl, _, rfl, rfl, rfl, rfl, rfl, rfl, rfl⟩

end SurfaceTypes

section GridCells

open window_impl

/-! ## Drawing into a grid cell -/

theorem afterGrid_eq (WHITE : Vec4) (fresh : Mat4) (self : WindowImpl) (rows cols : Int)
    (hr : rows ≠ 0) (hc : cols ≠ 0) (hsize : 0 ≤ wrapInt (rows * cols)) :
    afterGrid WHITE fresh self rows cols =
      some { self with mWidget :=
        ⟨self.mWidget.mWidth, self.mWidget.mHeight, rows, cols,
          Int.tdiv self.mWidget.mWidth cols, Int.tdiv self.mWidget.mHeight rows,
          List.replicate (wrapInt (rows * cols)).toNat Mat4.identity,
          self.mWidget.mFramePBO⟩ } := by
  unfold afterGrid
  rw [grid_eq WHITE fresh self.mWidget rows cols hr hc hsize]
  rfl

theorem afterGrid_none (WHITE : Vec4) (fresh : Mat4) (self : WindowImpl) (rows cols : Int)
    (h : rows = 0 ∨ cols = 0 ∨ wrapInt (rows * cols) < 0) :
    afterGrid WHITE fresh self rows cols = none := by
  unfold afterGrid grid
  by_cases h0 : cols = 0 ∨ rows = 0
  · simp only [h0, if_true, Option.map_none']
  · have hneg : wrapInt (rows * cols) < 0 := by omega
    simp only [h0, if_false, resetViewMatrices, hneg, if_true, Option.map_none']

theorem afterGrid_some (WHITE : Vec4) (fresh : Mat4) (self : WindowImpl) (rows cols : Int)
    (w : WindowImpl) (h : afterGrid WHITE fresh self rows cols = some w) :
    w = { self with mWidget :=
        ⟨self.mWidget.mWidth, self.mWidget.mHeight, rows, cols,
          Int.tdiv self.mWidget.mWidth cols, Int.tdiv self.mWidget.mHeight rows,
          List.replicate (wrapInt (rows * cols)).toNat Mat4.identity,
          self.mWidget.mFramePBO⟩ } := by
  by_cases hbad : rows = 0 ∨ cols = 0 ∨ wrapInt (rows * cols) < 0
  · rw [afterGrid_none WHITE fresh self rows cols hbad] at h
    exact Option.noConfusion h
  · rw [afterGrid_eq WHITE fresh self rows cols (by omega) (by omega) (by omega)] at h
    exact (Option.some.inj h).symm

theorem draw_renderRects (AF_BLUE : Vec4) (p : Process) (self : WindowImpl) (col row : Int)
    (title : Option String) :
    renderRects (draw AF_BLUE p self col row title).2 =
      [(col * self.mWidget.mCellWidth,
        (self.mWidget.mRows - 1 - row) * self.mWidget.mCellHeight,
        self.mWidget.mCellWidth, self.mWidget.mCellHeight)] := by
  cases title <;> simp [draw, renderRects]

theorem draw_renderViews (AF_BLUE : Vec4) (p : Process) (self : WindowImpl) (col row : Int)
    (title : Option String) :
    renderViews (draw AF_BLUE p self col row title).2 =
      [(wrapInt (row + wrapInt (col * self.mWidget.mRows)),
        if wrapInt (row + wrapInt (col * self.mWidget.mRows)) < 0 then none
        else self.mWidget.mViewMatrices[
          (wrapInt (row + wrapInt (col * self.mWidget.mRows))).toNat]?)] := by
  cases title <;> simp [draw, renderViews]

theorem draw_viewportRects (AF_BLUE : Vec4) (p : Process) (self : WindowImpl) (col row : Int)
    (title : Option String) :
    viewportRects (draw AF_BLUE p self col row title).2 =
      [(col * self.mWidget.mCellWidth + percentOf 2 self.mWidget.mCellWidth,
        (self.mWidget.mRows - 1 - row) * self.mWidget.mCellHeight +
          percentOf 2 self.mWidget.mCellHeight,
        self.mWidget.mCellWidth - 2 * percentOf 2 self.mWidget.mCellWidth,
        self.mWidget.mCellHeight - 2 * percentOf 6 self.mWidget.mCellHeight),
       (col * self.mWidget.mCellWidth,
        (self.mWidget.mRows - 1 - row) * self.mWidget.mCellHeight,
        self.mWidget.mCellWidth, self.mWidget.mCellHeight)] := by
  cases title <;> simp [draw, viewportRects]

theorem draw_scissorRects (AF_BLUE : Vec4) (p : Process) (self : WindowImpl) (col row : Int)
    (title : Option String) :
    scissorRects (draw AF_BLUE p self col row title).2 =
      [(col * self.mWidget.mCellWidth + percentOf 2 self.mWidget.mCellWidth,
        (self.mWidget.mRows - 1 - row) * self.mWidget.mCellHeight +
          percentOf 2 self.mWidget.mCellHeight,
        self.mWidget.mCellWidth - 2 * percentOf 2 self.mWidget.mCellWidth,
        self.mWidget.mCellHeight - 2 * percentOf 6 self.mWidget.mCellHeight)] := by
  cases title <;> simp [draw, scissorRects]

/-- C12: on a window of size `W x H` with `H >= 0`, for `rows, cols >= 1`,
`grid(rows, cols)` returns when `rows*cols <= 2^31 - 1`, and whenever it
returns `draw(col, row, renderable, title)` hands to `render` the rectangle
`x = col*(W/cols)`, `y = (rows-1-row)*(H/rows)`, `width = W/cols`,
`height = H/rows` (integer division). So the row `rows-1` has the y offset 0,
no row from 0 on has a larger y offset than row 0, and the y offset strictly
decreases as the row increases when the cell height is positive. -/
theorem C12_cell_rectangle (WHITE AF_BLUE : Vec4) (fresh : Mat4) (p : Process)
    (self : WindowImpl) (rows cols : Int) (hr : 1 ≤ rows) (hc : 1 ≤ cols)
    (hH : 0 ≤ self.mWidget.mHeight) :
    (rows * cols ≤ 2147483647 → ∃ w : WindowImpl, afterGrid WHITE fresh self rows cols = some w) ∧
    (∀ w : WindowImpl, afterGrid WHITE fresh self rows cols = some w →
      ∀ col row title, renderRects (draw AF_BLUE p w col row title).2 =
        [(col * Int.tdiv self.mWidget.mWidth cols,
          (rows - 1 - row) * Int.tdiv self.mWidget.mHeight rows,
          Int.tdiv self.mWidget.mWidth cols, Int.tdiv self.mWidget.mHeight rows)]) ∧
    (rows - 1 - (rows - 1)) * Int.tdiv self.mWidget.mHeight rows = 0 ∧
    (∀ row, 0 ≤ row →
      (rows - 1 - row) * Int.tdiv self.mWidget.mHeight rows ≤
        (rows - 1 - 0) * Int.tdiv self.mWidget.mHeight rows) ∧
    (∀ row row', row < row' → 0 < Int.tdiv self.mWidget.mHeight rows →
      (rows - 1 - row') * Int.tdiv self.mWidget.mHeight rows <
        (rows - 1 - row) * Int.tdiv self.mWidget.mHeight rows) := by
  have hch : 0 ≤ Int.tdiv self.mWidget.mHeight rows := Int.tdiv_nonneg hH (by omega)
  refine ⟨?_, ?_, ?_, ?_, ?_⟩
  · intro hsize
    have hpos : 0 ≤ rows * cols := Int.mul_nonneg (by omega) (by omega)
    have hw : wrapInt (rows * cols) = rows * cols := wrapInt_of_range _ (by omega) hsize
    exact ⟨_, afterGrid_eq WHITE fresh self rows cols (by omega) (by omega) (by omega)⟩
  · intro w hw col row title
    rw [afterGrid_some WHITE fresh self rows cols w hw, draw_renderRects]
  · simp
  · intro row hrow
    exact Int.mul_le_mul_of_nonneg_right (by omega) hch
  · intro row row' hlt hpos
    exact Int.mul_lt_mul_of_pos_right (by omega) hpos

/-- Witness of C12: a window of 640 x 480 with a grid of 4 x 2 cells. -/
theorem C12_cell_rectangle_witness :
    ∃ w : WindowImpl, afterGrid ⟨1, 1, 1, 1⟩ Mat4.identity sampleFirstWindow 4 2 = some w ∧
      renderRects (draw ⟨0, 0, 1, 1⟩ Process.start w 1 0 none).2 = [(320, 360, 320, 120)] ∧
      renderRects (draw ⟨0, 0, 1, 1⟩ Process.start w 1 3 none).2 = [(320, 0, 320, 120)] := by
  obtain ⟨hex, hrect, _⟩ := C12_cell_rectangle ⟨1, 1, 1, 1⟩ ⟨0, 0, 1, 1⟩ Mat4.identity
    Process.start sampleFirstWindow 4 2 (by decide) (by decide) (by decide)
  obtain ⟨w, hw⟩ := hex (by decide)
  exact ⟨w, hw, hrect w hw 1 0 none, hrect w hw 1 3 none⟩

/-- C13, as stated, fails: in a cell of 320 x 100 at the origin `(320, 300)`
the margins are `top = 6` and `bot = lef = rig = 2`, the claimed inset
rectangle has the height `100 - 6 - 2 = 92`, and `draw` gives `glViewport`
and `glScissor` the rectangle `(326, 302, 308, 88)`: its top edge lies 10
below the top edge of the cell, not 6. -/
theorem C13_height_is_not_cell_minus_top_minus_bottom :
    ∃ w : WindowImpl,
      afterGrid ⟨1, 1, 1, 1⟩ Mat4.identity
        { sampleFirstWindow with mWidget := ⟨640, 400, 1, 1, 640, 400, [], 7⟩ } 4 2 = some w ∧
      w.mWidget.mCellWidth = 320 ∧ w.mWidget.mCellHeight = 100 ∧
      percentOf 6 w.mWidget.mCellHeight = 6 ∧ percentOf 2 w.mWidget.mCellHeight = 2 ∧
      scissorRects (draw ⟨0, 0, 1, 1⟩ Process.start w 1 0 none).2 = [(326, 302, 308, 88)] ∧
      viewportRects (draw ⟨0, 0, 1, 1⟩ Process.start w 1 0 none).2 =
        [(326, 302, 308, 88), (320, 300, 320, 100)] ∧
      (88 : Int) ≠ 100 - 6 - 2 ∧ ((300 : Int) + 100) - (302 + 88) ≠ 6 := by
  refine ⟨_, afterGrid_eq _ _ _ 4 2 (by decide) (by decide) (by decide),
    ?_, ?_, ?_, ?_, ?_, ?_, ?_, ?_⟩ <;> decide

/-- C13, amended: with `top = int(0.06*cellHeight)`, `bot = int(0.02*cellHeight)`
and `lef = rig = int(0.02*cellWidth)`, `draw` gives both `glViewport` and
`glScissor` the rectangle of origin `(x_off+lef, y_off+bot)`, width
`cellWidth-2*rig = cellWidth-lef-rig` and height `cellHeight-2*top`; the gap
between the top edge of the rectangle and the top edge of the cell is
`2*top-bot`. `glViewport` is then reset to the whole cell. -/
theorem C13_inset_rectangle (AF_BLUE : Vec4) (p : Process) (self : WindowImpl)
    (col row : Int) (title : Option String) :
    scissorRects (draw AF_BLUE p self col row title).2 =
      [(col * self.mWidget.mCellWidth + percentOf 2 self.mWidget.mCellWidth,
        (self.mWidget.mRows - 1 - row) * self.mWidget.mCellHeight +
          percentOf 2 self.mWidget.mCellHeight,
        self.mWidget.mCellWidth - 2 * percentOf 2 self.mWidget.mCellWidth,
        self.mWidget.mCellHeight - 2 * percentOf 6 self.mWidget.mCellHeight)] ∧
    viewportRects (draw AF_BLUE p self col row title).2 =
      scissorRects (draw AF_BLUE p self col row title).2 ++
        renderRects (draw AF_BLUE p self col row title).2 ∧
    self.mWidget.mCellWidth - 2 * percentOf 2 self.mWidget.mCellWidth =
      self.mWidget.mCellWidth - percentOf 2 self.mWidget.mCellWidth -
        percentOf 2 self.mWidget.mCellWidth ∧
    ((self.mWidget.mRows - 1 - row) * self.mWidget.mCellHeight + self.mWidget.mCellHeight) -
      (((self.mWidget.mRows - 1 - row) * self.mWidget.mCellHeight +
        percentOf 2 self.mWidget.mCellHeight) +
        (self.mWidget.mCellHeight - 2 * percentOf 6 self.mWidget.mCellHeight)) =
      2 * percentOf 6 self.mWidget.mCellHeight - percentOf 2 self.mWidget.mCellHeight := by
  refine ⟨draw_scissorRects AF_BLUE p self col row title, ?_, ?_, ?_⟩
  · rw [draw_viewportRects, draw_scissorRects, draw_renderRects]
    rfl
  · omega
  · omega

theorem cell_index_lt (rows cols row col : Int) (hrow : row < rows) (_hcol0 : 0 ≤ col)
    (hcol : col < cols) (hrows : 1 ≤ rows) : row + col * rows < rows * cols := by
  have h1 : (col + 1) * rows ≤ cols * rows := Int.mul_le_mul_of_nonneg_right (by omega) (by omega)
  have h2 : (col + 1) * rows = col * rows + rows := by ring
  have h3 : cols * rows = rows * cols := Int.mul_comm _ _
  omega

theorem cell_index_nonneg (rows row col : Int) (hrow : 0 ≤ row) (hcol : 0 ≤ col)
    (hrows : 1 ≤ rows) : 0 ≤ row + col * rows := by
  have := Int.mul_nonneg hcol (by omega : (0 : Int) ≤ rows)
  omega

theorem cell_index_inj (rows row col row' col' : Int) (h0 : 0 ≤ row) (h1 : row < rows)
    (h0' : 0 ≤ row') (h1' : row' < rows) (h : row + col * rows = row' + col' * rows) :
    row = row' ∧ col = col' := by
  have hm : (row + col * rows) % rows = (row' + col' * rows) % rows := by rw [h]
  rw [Int.add_mul_emod_self, Int.add_mul_emod_self, Int.emod_eq_of_lt h0 h1,
    Int.emod_eq_of_lt h0' h1'] at hm
  subst hm
  have h2 : col * rows = col' * rows := by omega
  exact ⟨rfl, Int.eq_of_mul_eq_mul_right (by omega) h2⟩

theorem replicate_lookup {α : Type} (n : Nat) (x : α) (i : Int) :
    (if i < 0 then none else (List.replicate n x)[i.toNat]?) =
      if 0 ≤ i ∧ i < (n : Int) then some x else none := by
  by_cases hneg : i < 0
  · rw [if_pos hneg, if_neg (by omega)]
  · rw [if_neg hneg]
    by_cases hlt : i < (n : Int)
    · rw [if_pos ⟨by omega, hlt⟩, List.getElem?_replicate, if_pos (by omega)]
    · rw [if_neg (by omega), List.getElem?_replicate, if_neg (by omega)]

theorem draw_renderViews_replicate (AF_BLUE : Vec4) (p : Process) (self : WindowImpl)
    (n : Nat) (hm : self.mWidget.mViewMatrices = List.replicate n Mat4.identity)
    (col row : Int) (title : Option String) :
    renderViews (draw AF_BLUE p self col row title).2 =
      [(wrapInt (row + wrapInt (col * self.mWidget.mRows)),
        if 0 ≤ wrapInt (row + wrapInt (col * self.mWidget.mRows)) ∧
            wrapInt (row + wrapInt (col * self.mWidget.mRows)) < (n : Int)
        then some Mat4.identity else none)] := by
  rw [draw_renderViews, hm, replicate_lookup]

/-- C19, as stated, fails: `rows = cols = 65536` are both `>= 1` and
`(row 0, col 0)` is a cell of the grid, yet after `grid(65536, 65536)` the
collection is empty (the `int` product `mRows*mCols` is `0`) and
`draw(0, 0, ...)` reads the index `0` outside the collection. -/
theorem C19_lookup_outside_after_grid_65536_by_65536 :
    ((1 : Int) ≤ 65536 ∧ (0 : Int) ≤ 0 ∧ (0 : Int) < 65536) ∧
    ∃ w : WindowImpl,
      afterGrid ⟨1, 1, 1, 1⟩ Mat4.identity sampleFirstWindow 65536 65536 = some w ∧
      w.mWidget.mViewMatrices = [] ∧
      renderViews (draw ⟨0, 0, 1, 1⟩ Process.start w 0 0 none).2 = [(0, none)] := by
  have hsize : wrapInt (65536 * 65536) = 0 := by decide
  refine ⟨by decide, _,
    afterGrid_eq _ _ _ 65536 65536 (by decide) (by decide) (by decide), ?_, ?_⟩
  · show List.replicate (wrapInt (65536 * 65536)).toNat Mat4.identity = []
    rw [hsize]
    rfl
  · rw [draw_renderViews_replicate _ _ _ (wrapInt (65536 * 65536)).toNat rfl]
    have hi : wrapInt (0 + wrapInt (0 * 65536)) = 0 := by decide
    show [(wrapInt (0 + wrapInt (0 * 65536)),
      if 0 ≤ wrapInt (0 + wrapInt (0 * 65536)) ∧
        wrapInt (0 + wrapInt (0 * 65536)) < (((wrapInt (65536 * 65536)).toNat : Nat) : Int)
      then some Mat4.identity else none)] = [(0, none)]
    rw [hi, hsize, if_neg (by decide)]

/-- C19, amended: after `grid(rows, cols)` with `rows, cols >= 1` and
`rows*cols <= 2^31 - 1`, for every cell with `0 <= row < rows` and
`0 <= col < cols` the index `row + col*rows` that `draw(col, row, ...)` uses
does not overflow, is in `[0, rows*cols)`, the lookup gives the identity
matrix of the cell, and two different cells have different indices. For
`row >= rows` or `col >= cols` the index, an `int`, lies outside the
collection or is the index of another cell, whose matrix is read; it lies
outside for `col >= cols` and `row >= 0` when `row + col*rows` does not
overflow. In every case `draw` makes the one lookup and calls `render`: it
performs no check. -/
theorem C19_view_matrix_index (WHITE AF_BLUE : Vec4) (fresh : Mat4) (p : Process)
    (self : WindowImpl) (rows cols : Int) (hr : 1 ≤ rows) (hc : 1 ≤ cols)
    (hsize : rows * cols ≤ 2147483647) :
    ∃ w : WindowImpl, afterGrid WHITE fresh self rows cols = some w ∧
      (w.mWidget.mViewMatrices.length : Int) = rows * cols ∧
      (∀ col row title, ∃ v, renderViews (draw AF_BLUE p w col row title).2 =
        [(wrapInt (row + wrapInt (col * rows)), v)]) ∧
      (∀ col row title, 0 ≤ row → row < rows → 0 ≤ col → col < cols →
        wrapInt (row + wrapInt (col * rows)) = row + col * rows ∧
        0 ≤ row + col * rows ∧ row + col * rows < rows * cols ∧
        renderViews (draw AF_BLUE p w col row title).2 =
          [(row + col * rows, some Mat4.identity)]) ∧
      (∀ col row col' row', 0 ≤ row → row < rows → 0 ≤ row' → row' < rows →
        row + col * rows = row' + col' * rows → row = row' ∧ col = col') ∧
      (∀ col row title, 0 ≤ row → cols ≤ col → row + col * rows ≤ 2147483647 →
        rows * cols ≤ row + col * rows ∧
        renderViews (draw AF_BLUE p w col row title).2 = [(row + col * rows, none)]) ∧
      (∀ col row title, rows ≤ row ∨ cols ≤ col →
        renderViews (draw AF_BLUE p w col row title).2 =
          [(wrapInt (row + wrapInt (col * rows)), none)] ∨
        ∃ col' row', 0 ≤ row' ∧ row' < rows ∧ 0 ≤ col' ∧ col' < cols ∧
          (row', col') ≠ (row, col) ∧
          row' + col' * rows = wrapInt (row + wrapInt (col * rows)) ∧
          renderViews (draw AF_BLUE p w col row title).2 =
            [(wrapInt (row + wrapInt (col * rows)), some Mat4.identity)]) := by
  have hpos : 0 ≤ rows * cols := Int.mul_nonneg (by omega) (by omega)
  have hw : wrapInt (rows * cols) = rows * cols := wrapInt_of_range _ (by omega) hsize
  have hlen : (((wrapInt (rows * cols)).toNat : Nat) : Int) = rows * cols := by
    rw [hw]
    exact Int.toNat_of_nonneg hpos
  have hrpos : 0 < rows := by omega
  have hview : ∀ col row title,
      renderViews (draw AF_BLUE p
        { self with mWidget :=
          ⟨self.mWidget.mWidth, self.mWidget.mHeight, rows, cols,
            Int.tdiv self.mWidget.mWidth cols, Int.tdiv self.mWidget.mHeight rows,
            List.replicate (wrapInt (rows * cols)).toNat Mat4.identity,
            self.mWidget.mFramePBO⟩ }
        col row title).2 =
      [(wrapInt (row + wrapInt (col * rows)),
        if 0 ≤ wrapInt (row + wrapInt (col * rows)) ∧
            wrapInt (row + wrapInt (col * rows)) < rows * cols
        then some Mat4.identity else none)] := by
    intro col row title
    rw [draw_renderViews_replicate AF_BLUE p _ (wrapInt (rows * cols)).toNat rfl, hlen]
  refine ⟨_, afterGrid_eq WHITE fresh self rows cols (by omega) (by omega) (by omega),
    ?_, ?_, ?_, ?_, ?_, ?_⟩
  · simp only [List.length_replicate]
    exact hlen
  · intro col row title
    exact ⟨_, hview col row title⟩
  · intro col row title h0 h1 h2 h3
    have hnn := cell_index_nonneg rows row col h0 h2 hr
    have hlt := cell_index_lt rows cols row col h1 h2 h3 hr
    have hcr : 0 ≤ col * rows := Int.mul_nonneg h2 (by omega)
    have hi : wrapInt (row + wrapInt (col * rows)) = row + col * rows := by
      rw [wrapInt_of_range (col * rows) (by omega) (by omega),
        wrapInt_of_range _ (by omega) (by omega)]
    refine ⟨hi, hnn, hlt, ?_⟩
    rw [hview, hi, if_pos ⟨hnn, hlt⟩]
  · intro col row col' row' h0 h1 h0' h1' h
    exact cell_index_inj rows row col row' col' h0 h1 h0' h1' h
  · intro col row title h0 hcol hfit
    have h1 : cols * rows ≤ col * rows := Int.mul_le_mul_of_nonneg_right hcol (by omega)
    have h3 : cols * rows = rows * cols := Int.mul_comm _ _
    have hge : rows * cols ≤ row + col * rows := by omega
    have hi : wrapInt (row + wrapInt (col * rows)) = row + col * rows := by
      rw [wrapInt_of_range (col * rows) (by omega) (by omega),
        wrapInt_of_range _ (by omega) (by omega)]
    refine ⟨hge, ?_⟩
    rw [hview, hi, if_neg (by omega)]
  · intro col row title hout
    by_cases hin : 0 ≤ wrapInt (row + wrapInt (col * rows)) ∧
        wrapInt (row + wrapInt (col * rows)) < rows * cols
    · right
      have hv := hview col row title
      rw [if_pos hin] at hv
      generalize wrapInt (row + wrapInt (col * rows)) = i at hin hv ⊢
      have hcol : i / rows < cols := by
        rw [Int.ediv_lt_iff_lt_mul hrpos]
        have h3 : cols * rows = rows * cols := Int.mul_comm _ _
        omega
      have hmod := Int.emod_lt_of_pos i hrpos
      refine ⟨i / rows, i % rows, Int.emod_nonneg _ (by omega), hmod,
        Int.ediv_nonneg hin.1 (by omega), hcol, ?_, Int.emod_add_ediv' _ _, ?_⟩
      · intro e
        have e1 : i % rows = row := congrArg Prod.fst e
        have e2 : i / rows = col := congrArg Prod.snd e
        omega
      · exact hv
    · left
      rw [hview, if_neg hin]

/-- Witness of C19: a grid of 2 x 2 cells. The cell `(row 1, col 1)` uses the
index 3; the row 2 of column 0 uses the index 2, which is that of the cell
`(row 0, col 1)`, and the column 2 reads outside the collection. -/
theorem C19_view_matrix_index_witness :
    ∃ w : WindowImpl, afterGrid ⟨1, 1, 1, 1⟩ Mat4.identity sampleFirstWindow 2 2 = some w ∧
      renderViews (draw ⟨0, 0, 1, 1⟩ Process.start w 1 1 none).2 = [(3, some Mat4.identity)] ∧
      renderViews (draw ⟨0, 0, 1, 1⟩ Process.start w 0 2 none).2 = [(2, some Mat4.identity)] ∧
      renderViews (draw ⟨0, 0, 1, 1⟩ Process.start w 1 0 none).2 = [(2, some Mat4.identity)] ∧
      renderViews (draw ⟨0, 0, 1, 1⟩ Process.start w 2 0 none).2 = [(4, none)] := by
  obtain ⟨w, hw, _, _, hin, _, hout, _⟩ := C19_view_matrix_index ⟨1, 1, 1, 1⟩ ⟨0, 0, 1, 1⟩
    Mat4.identity Process.start sampleFirstWindow 2 2 (by decide) (by decide) (by decide)
  have e := afterGrid_eq ⟨1, 1, 1, 1⟩ Mat4.identity sampleFirstWindow 2 2 (by decide)
    (by decide) (by decide)
  rw [e] at hw
  cases hw
  exact ⟨_, e, (hin 1 1 none (by decide) (by decide) (by decide) (by decide)).2.2.2, by decide,
    (hin 1 0 none (by decide) (by decide) (by decide) (by decide)).2.2.2,
    (hout 2 0 none (by decide) (by decide) (by decide)).2⟩

end GridCells

section CopyLoop

open window_impl

/-! ## The copy loop of saveFrameBuffer -/

theorem getD_set (l : List Nat) (i j a : Nat) :
    (l.set i a).getD j 0 = if i = j ∧ i < l.length then a else l.getD j 0 := by
  simp only [List.getD_eq_getElem?_getD, List.getElem?_set]
  by_cases h : i = j
  · subst h
    by_cases hl : i < l.length
    · simp [hl]
    · simp [hl, List.getElem?_eq_none (Nat.le_of_not_lt hl)]
  · simp [h]

theorem copyPixel_spec (fi : SaveContext) (hch : fi.channelsOk) (src dst : List Nat)
    (base x i : Nat) (hx : 4 * x < 4294967296) (hi : 4 * i + 3 < 4294967296)
    (hlen : base + 4 * x + 3 < dst.length) :
    (copyPixel fi src dst base x i).length = dst.length ∧
    (copyPixel fi src dst base x i).getD (base + 4 * x + fi.FI_RGBA_RED) 0 =
      src.getD (4 * i + 0) 0 ∧
    (copyPixel fi src dst base x i).getD (base + 4 * x + fi.FI_RGBA_GREEN) 0 =
      src.getD (4 * i + 1) 0 ∧
    (copyPixel fi src dst base x i).getD (base + 4 * x + fi.FI_RGBA_BLUE) 0 =
      src.getD (4 * i + 2) 0 ∧
    (copyPixel fi src dst base x i).getD (base + 4 * x + fi.FI_RGBA_ALPHA) 0 =
      src.getD (4 * i + 3) 0 ∧
    ∀ off, (off < base + 4 * x ∨ base + 4 * x + 4 ≤ off) →
      (copyPixel fi src dst base x i).getD off 0 = dst.getD off 0 := by
  obtain ⟨hR, hG, hB, hA, hRG, hRB, hRA, hGB, hGA, hBA⟩ := hch
  have e0 : (x * 4) % 4294967296 = 4 * x := by omega
  have e1 : (4 * i + 0) % 4294967296 = 4 * i + 0 := by omega
  have e2 : (4 * i + 1) % 4294967296 = 4 * i + 1 := by omega
  have e3 : (4 * i + 2) % 4294967296 = 4 * i + 2 := by omega
  have e4 : (4 * i + 3) % 4294967296 = 4 * i + 3 := by omega
  unfold copyPixel
  simp only [e0, e1, e2, e3, e4, getD_set, List.length_set, true_and]
  refine ⟨?_, ?_, ?_, ?_, ?_⟩
  · split_ifs <;> first | rfl | omega
  · split_ifs <;> first | rfl | omega
  · split_ifs <;> first | rfl | omega
  · split_ifs <;> first | rfl | omega
  · intro off hoff
    split_ifs <;> first | rfl | omega

theorem copyRow_succ (fi : SaveContext) (src : List Nat) (n base : Nat)
    (st : List Nat × Nat) :
    copyRow fi src (n + 1) base st =
      (copyPixel fi src (copyRow fi src n base st).1 base n (copyRow fi src n base st).2,
        ((copyRow fi src n base st).2 + 1) % 4294967296) := by
  unfold copyRow
  rw [List.range_succ, List.foldl_append]
  rfl

theorem copyRow_spec (fi : SaveContext) (hch : fi.channelsOk) (src dst : List Nat)
    (base i0 : Nat) :
    ∀ n, 4 * (i0 + n) ≤ 4294967296 → base + 4 * n ≤ dst.length →
      (copyRow fi src n base (dst, i0)).2 = i0 + n ∧
      (copyRow fi src n base (dst, i0)).1.length = dst.length ∧
      (∀ x, x < n →
        (copyRow fi src n base (dst, i0)).1.getD (base + 4 * x + fi.FI_RGBA_RED) 0 =
          src.getD (4 * (i0 + x) + 0) 0 ∧
        (copyRow fi src n base (dst, i0)).1.getD (base + 4 * x + fi.FI_RGBA_GREEN) 0 =
          src.getD (4 * (i0 + x) + 1) 0 ∧
        (copyRow fi src n base (dst, i0)).1.getD (base + 4 * x + fi.FI_RGBA_BLUE) 0 =
          src.getD (4 * (i0 + x) + 2) 0 ∧
        (copyRow fi src n base (dst, i0)).1.getD (base + 4 * x + fi.FI_RGBA_ALPHA) 0 =
          src.getD (4 * (i0 + x) + 3) 0) ∧
      ∀ off, (off < base ∨ base + 4 * n ≤ off) →
        (copyRow fi src n base (dst, i0)).1.getD off 0 = dst.getD off 0 := by
  intro n
  induction n with
  | zero =>
    intro _ _
    refine ⟨rfl, rfl, ?_, ?_⟩
    · intro x hx
      omega
    · intro off _
      rfl
  | succ n ih =>
    intro hfit hlen
    obtain ⟨hi, hl, hw, hf⟩ := ih (by omega) (by omega)
    rw [copyRow_succ]
    generalize copyRow fi src n base (dst, i0) = st at hi hl hw hf
    obtain ⟨d, i⟩ := st
    simp only at hi hl hw hf ⊢
    subst hi
    obtain ⟨pl, pR, pG, pB, pA, pf⟩ := copyPixel_spec fi hch src d base n (i0 + n) (by omega)
      (by omega) (by omega)
    have hch' := hch
    obtain ⟨hR, hG, hB, hA, _⟩ := hch'
    refine ⟨by omega, by omega, ?_, ?_⟩
    · intro x hx
      by_cases hxn : x = n
      · subst hxn
        exact ⟨pR, pG, pB, pA⟩
      · obtain ⟨wR, wG, wB, wA⟩ := hw x (by omega)
        refine ⟨?_, ?_, ?_, ?_⟩
        · rw [pf _ (Or.inl (by omega))]; exact wR
        · rw [pf _ (Or.inl (by omega))]; exact wG
        · rw [pf _ (Or.inl (by omega))]; exact wB
        · rw [pf _ (Or.inl (by omega))]; exact wA
    · intro off hoff
      rw [pf off (by omega)]
      exact hf off (by omega)

theorem copyRows_fold_spec (fi : SaveContext) (hch : fi.channelsOk) (src dst : List Nat)
    (w h pitch : Nat) (hpitch : 4 * w ≤ pitch) (hfit : 4 * (w * h) ≤ 4294967296)
    (hlen : pitch * h ≤ dst.length) :
    ∀ n, n ≤ h →
      ((List.range n).foldl
        (fun (st : List Nat × Nat × Nat) _ =>
          let row := copyRow fi src w st.2.1 (st.1, st.2.2)
          (row.1, st.2.1 + pitch, row.2)) (dst, 0, 0)).2.1 = n * pitch ∧
      ((List.range n).foldl
        (fun (st : List Nat × Nat × Nat) _ =>
          let row := copyRow fi src w st.2.1 (st.1, st.2.2)
          (row.1, st.2.1 + pitch, row.2)) (dst, 0, 0)).2.2 = n * w ∧
      ((List.range n).foldl
        (fun (st : List Nat × Nat × Nat) _ =>
          let row := copyRow fi src w st.2.1 (st.1, st.2.2)
          (row.1, st.2.1 + pitch, row.2)) (dst, 0, 0)).1.length = dst.length ∧
      (∀ x y, x < w → y < n →
        ((List.range n).foldl
        (fun (st : List Nat × Nat × Nat) _ =>
          let row := copyRow fi src w st.2.1 (st.1, st.2.2)
          (row.1, st.2.1 + pitch, row.2)) (dst, 0, 0)).1.getD (y * pitch + 4 * x + fi.FI_RGBA_RED) 0 =
          src.getD (4 * (y * w + x) + 0) 0 ∧
        ((List.range n).foldl
        (fun (st : List Nat × Nat × Nat) _ =>
          let row := copyRow fi src w st.2.1 (st.1, st.2.2)
          (row.1, st.2.1 + pitch, row.2)) (dst, 0, 0)).1.getD (y * pitch + 4 * x + fi.FI_RGBA_GREEN) 0 =
          src.getD (4 * (y * w + x) + 1) 0 ∧
        ((List.range n).foldl
        (fun (st : List Nat × Nat × Nat) _ =>
          let row := copyRow fi src w st.2.1 (st.1, st.2.2)
          (row.1, st.2.1 + pitch, row.2)) (dst, 0, 0)).1.getD (y * pitch + 4 * x + fi.FI_RGBA_BLUE) 0 =
          src.getD (4 * (y * w + x) + 2) 0 ∧
        ((List.range n).foldl
        (fun (st : List Nat × Nat × Nat) _ =>
          let row := copyRow fi src w st.2.1 (st.1, st.2.2)
          (row.1, st.2.1 + pitch, row.2)) (dst, 0, 0)).1.getD (y * pitch + 4 * x + fi.FI_RGBA_ALPHA) 0 =
          src.getD (4 * (y * w + x) + 3) 0) ∧
      ∀ off, (∀ y, y < n → off < y * pitch ∨ y * pitch + 4 * w ≤ off) →
        ((List.range n).foldl
        (fun (st : List Nat × Nat × Nat) _ =>
          let row := copyRow fi src w st.2.1 (st.1, st.2.2)
          (row.1, st.2.1 + pitch, row.2)) (dst, 0, 0)).1.getD off 0 = dst.getD off 0 := by
  intro n
  induction n with
  | zero =>
    intro _
    refine ⟨by simp, by simp, rfl, ?_, ?_⟩
    · intro x y _ hy
      omega
    · intro off _
      rfl
  | succ n ih =>
    intro hn
    obtain ⟨hb, hi, hl, hw, hf⟩ := ih (by omega)
    rw [List.range_succ, List.foldl_append]
    generalize (List.range n).foldl
        (fun (st : List Nat × Nat × Nat) _ =>
          let row := copyRow fi src w st.2.1 (st.1, st.2.2)
          (row.1, st.2.1 + pitch, row.2)) (dst, 0, 0) = st at hb hi hl hw hf
    obtain ⟨d, b, i⟩ := st
    simp only at hb hi hl hw hf
    subst hb hi
    simp only [List.foldl_cons, List.foldl_nil]
    have hch' := hch
    obtain ⟨hR, hG, hB, hA, _⟩ := hch'
    have m1 : (n + 1) * w ≤ h * w := Nat.mul_le_mul_right w hn
    have m2 : (n + 1) * w = n * w + w := Nat.succ_mul n w
    have m3 : h * w = w * h := Nat.mul_comm h w
    have m4 : (n + 1) * pitch ≤ h * pitch := Nat.mul_le_mul_right pitch hn
    have m5 : (n + 1) * pitch = n * pitch + pitch := Nat.succ_mul n pitch
    have m6 : h * pitch = pitch * h := Nat.mul_comm h pitch
    obtain ⟨ri, rl, rw_, rf⟩ := copyRow_spec fi hch src d (n * pitch) (n * w) w (by omega)
      (by omega)
    refine ⟨by omega, by omega, by omega, ?_, ?_⟩
    · intro x y hx hy
      by_cases hyn : y = n
      · subst hyn
        exact rw_ x hx
      · have hy' : y < n := by omega
        have k1 : (y + 1) * pitch ≤ n * pitch := Nat.mul_le_mul_right pitch (by omega)
        have k2 : (y + 1) * pitch = y * pitch + pitch := Nat.succ_mul y pitch
        obtain ⟨wR, wG, wB, wA⟩ := hw x y hx hy'
        refine ⟨?_, ?_, ?_, ?_⟩
        · rw [rf _ (Or.inl (by omega))]; exact wR
        · rw [rf _ (Or.inl (by omega))]; exact wG
        · rw [rf _ (Or.inl (by omega))]; exact wB
        · rw [rf _ (Or.inl (by omega))]; exact wA
    · intro off hoff
      rw [rf off (hoff n (by omega))]
      exact hf off (fun y hy => hoff y (by omega))

theorem copyRows_spec (fi : SaveContext) (hch : fi.channelsOk) (src dst : List Nat)
    (w h pitch : Nat) (hpitch : 4 * w ≤ pitch) (hfit : 4 * (w * h) ≤ 4294967296)
    (hlen : pitch * h ≤ dst.length) :
    (copyRows fi src w h pitch dst).length = dst.length ∧
    (∀ x y, x < w → y < h →
      (copyRows fi src w h pitch dst).getD (y * pitch + 4 * x + fi.FI_RGBA_RED) 0 =
        src.getD (4 * (y * w + x) + 0) 0 ∧
      (copyRows fi src w h pitch dst).getD (y * pitch + 4 * x + fi.FI_RGBA_GREEN) 0 =
        src.getD (4 * (y * w + x) + 1) 0 ∧
      (copyRows fi src w h pitch dst).getD (y * pitch + 4 * x + fi.FI_RGBA_BLUE) 0 =
        src.getD (4 * (y * w + x) + 2) 0 ∧
      (copyRows fi src w h pitch dst).getD (y * pitch + 4 * x + fi.FI_RGBA_ALPHA) 0 =
        src.getD (4 * (y * w + x) + 3) 0) ∧
    ∀ off, (∀ x y k, x < w → y < h → k < 4 → off ≠ y * pitch + 4 * x + k) →
      (copyRows fi src w h pitch dst).getD off 0 = dst.getD off 0 := by
  obtain ⟨_, _, hl, hw, hf⟩ :=
    copyRows_fold_spec fi hch src dst w h pitch hpitch hfit hlen h (Nat.le_refl h)
  refine ⟨hl, hw, ?_⟩
  intro off hoff
  apply hf off
  intro y hy
  by_contra hcon
  have h1 : y * pitch ≤ off := by omega
  have h2 : off < y * pitch + 4 * w := by omega
  exact hoff ((off - y * pitch) / 4) y ((off - y * pitch) % 4) (by omega) hy (by omega)
    (by omega)

theorem saveFrameBuffer_mapped (fi : SaveContext) (self : WindowImpl) (path : String)
    (bmp : Bitmap) (src : List Nat)
    (hformat : (detectFormat fi path).1 = .FIF_BMP ∨ (detectFormat fi path).1 = .FIF_PNG)
    (halloc : fi.FreeImage_Allocate (self.mWidget.mWidth % 4294967296).toNat
      (self.mWidget.mHeight % 4294967296).toNat 32 = some bmp)
    (hmap : fi.glMapBuffer self.mWidget.mFramePBO = some src) :
    (saveFrameBuffer fi self (some path)).2 = .ok () ∧
    savedBits (saveFrameBuffer fi self (some path)).1 =
      [copyRows fi src (self.mWidget.mWidth % 4294967296).toNat
        (self.mWidget.mHeight % 4294967296).toNat bmp.pitch bmp.bits] := by
  have hu : (detectFormat fi path).1 ≠ .FIF_UNKNOWN := by
    rcases hformat with h | h <;> rw [h] <;> decide
  have hdet : savedBits (detectFormat fi path).2 = [] := by
    unfold detectFormat
    split_ifs <;> rfl
  have happ : ∀ a b : List Effect, savedBits (a ++ b) = savedBits a ++ savedBits b := by
    intro a b
    induction a with
    | nil => rfl
    | cons e rest ih =>
      rw [List.cons_append]
      cases e <;> simp only [savedBits] <;> (rw [ih]; try rfl)
  refine ⟨?_, ?_⟩
  · unfold saveFrameBuffer
    simp only [hu, if_false, hformat, not_true_eq_false, halloc, hmap]
  · unfold saveFrameBuffer
    simp only [hu, if_false, hformat, not_true_eq_false, halloc, hmap, happ, hdet]
    rfl

/-- C16: in `saveFrameBuffer`, when the format is BMP or PNG, the bitmap is
allocated and the mapped source pointer is not null, the bitmap handed to
`FreeImage_Save` is the result `out` of the copy loop on the bitmap `dst`. For
a window of width `w` and height `h`, a row pitch `>= 4*w`, a bitmap of at
least `pitch*h` bytes, four different channel offsets below 4 and a frame of
at most `2^30` pixels (so that no `uint` counter wraps),
`out[y*pitch + 4*x + FI_RGBA_k] = src[4*(y*w + x) + j]` for all `x < w`,
`y < h` and `(k, j)` in `(RED,0), (GREEN,1), (BLUE,2), (ALPHA,3)`, and every
byte at another offset is the byte of `dst`. -/
theorem C16_copy_loop (fi : SaveContext) (self : WindowImpl) (path : String) (bmp : Bitmap)
    (src : List Nat) (w h : Nat)
    (hw : (self.mWidget.mWidth % 4294967296).toNat = w)
    (hh : (self.mWidget.mHeight % 4294967296).toNat = h)
    (hformat : (detectFormat fi path).1 = .FIF_BMP ∨ (detectFormat fi path).1 = .FIF_PNG)
    (halloc : fi.FreeImage_Allocate w h 32 = some bmp)
    (hmap : fi.glMapBuffer self.mWidget.mFramePBO = some src)
    (hch : fi.channelsOk) (hpitch : 4 * w ≤ bmp.pitch) (hfit : 4 * (w * h) ≤ 4294967296)
    (hlen : bmp.pitch * h ≤ bmp.bits.length) :
    ∃ out : List Nat,
      savedBits (saveFrameBuffer fi self (some path)).1 = [out] ∧
      out = copyRows fi src w h bmp.pitch bmp.bits ∧
      out.length = bmp.bits.length ∧
      (∀ x y, x < w → y < h →
        out.getD (y * bmp.pitch + 4 * x + fi.FI_RGBA_RED) 0 =
          src.getD (4 * (y * w + x) + 0) 0 ∧
        out.getD (y * bmp.pitch + 4 * x + fi.FI_RGBA_GREEN) 0 =
          src.getD (4 * (y * w + x) + 1) 0 ∧
        out.getD (y * bmp.pitch + 4 * x + fi.FI_RGBA_BLUE) 0 =
          src.getD (4 * (y * w + x) + 2) 0 ∧
        out.getD (y * bmp.pitch + 4 * x + fi.FI_RGBA_ALPHA) 0 =
          src.getD (4 * (y * w + x) + 3) 0) ∧
      ∀ off, (∀ x y k, x < w → y < h → k < 4 → off ≠ y * bmp.pitch + 4 * x + k) →
        out.getD off 0 = bmp.bits.getD off 0 := by
  subst hw hh
  obtain ⟨hl, hwr, hfr⟩ := copyRows_spec fi hch src bmp.bits _ _ bmp.pitch hpitch hfit hlen
  exact ⟨_, (saveFrameBuffer_mapped fi self path bmp src hformat halloc hmap).2, rfl, hl,
    hwr, hfr⟩

/-- Witness of C16: a frame of 2 x 2 pixels copied into a bitmap with rows of
12 bytes, with the channel order blue, green, red, alpha; the four padding
bytes of each row keep the value `99`. -/
theorem C16_copy_loop_witness :
    sampleMappedContext.channelsOk ∧
    savedBits (saveFrameBuffer sampleMappedContext sampleWindow (some "a.png")).1 =
      [[12, 11, 10, 13, 22, 21, 20, 23, 99, 99, 99, 99,
        32, 31, 30, 33, 42, 41, 40, 43, 99, 99, 99, 99]] ∧
    ∃ out : List Nat,
      savedBits (saveFrameBuffer sampleMappedContext sampleWindow (some "a.png")).1 = [out] ∧
      out.getD (1 * 12 + 4 * 1 + 2) 0 = sampleFrame.getD (4 * (1 * 2 + 1) + 0) 0 := by
  have hch : sampleMappedContext.channelsOk := by decide
  obtain ⟨out, h1, _, _, h4, _⟩ := C16_copy_loop sampleMappedContext sampleWindow "a.png"
    sampleBitmap sampleFrame 2 2 (by decide) (by decide) (Or.inr (by decide)) rfl rfl hch
    (by decide) (by decide) (by decide)
  exact ⟨hch, by decide, out, h1, (h4 1 1 (by decide) (by decide)).1⟩

end CopyLoop

section Serpentine

/-! ## The closed form and the termination of the index generator -/

/-- C17: for `R >= 2` and `1 <= C <= 32767` with `R*C <= 65536`, and for
`r < R-1` and `k < C`, the entry that `generateGridIndices(R, C, out)` writes
at the position `2*C*r + 2*k` is `r*C + k` when `r` is even and
`r*C + (C-1-k)` when `r` is odd, and the entry at `2*C*r + 2*k + 1` is that
value plus `C`. -/
theorem C17_serpentine_closed_form (R C r k : Nat) (_hR2 : 2 ≤ R) (hR : R < 65536)
    (_hC1 : 1 ≤ C) (hC : C ≤ 32767) (hRC : R * C ≤ 65536) (hr : r < R - 1) (hk : k < C) :
    ∃ out : List Nat,
      (∀ fuel, R + 2 * C + 2 ≤ fuel → generateGridIndices fuel R C = some out) ∧
      out[2 * C * r + 2 * k]? =
        some (if r % 2 = 0 then r * C + k else r * C + (C - 1 - k)) ∧
      out[2 * C * r + 2 * k + 1]? =
        some ((if r % 2 = 0 then r * C + k else r * C + (C - 1 - k)) + C) := by
  have hr1 : r + 1 < R := by omega
  refine ⟨gridList C (2 * C * (R - 1)), ?_, ?_, ?_⟩
  · intro fuel hf
    exact generateGridIndices_eq R C fuel hR hC hf
  · rw [gridList_getElem? C _ _ (row_position_lt R C r (2 * k) hr1 (by omega)),
      gridEntry_row C r (2 * k) (by omega), gridEntryAt_exact R C r (2 * k) hRC hr1 (by omega)]
    congr 1
    split_ifs <;> omega
  · have hlt := row_position_lt R C r (2 * k + 1) hr1 (by omega)
    rw [Nat.add_assoc, gridList_getElem? C _ _ hlt,
      gridEntry_row C r (2 * k + 1) (by omega),
      gridEntryAt_exact R C r (2 * k + 1) hRC hr1 (by omega)]
    congr 1
    split_ifs <;> omega

/-- Witness of C17: a grid of 3 x 4 points, strip row 1, column 2. -/
theorem C17_serpentine_closed_form_witness :
    ∃ out : List Nat,
      (∀ fuel, 3 + 2 * 4 + 2 ≤ fuel → generateGridIndices fuel 3 4 = some out) ∧
      out[2 * 4 * 1 + 2 * 2]? =
        some (if 1 % 2 = 0 then 1 * 4 + 2 else 1 * 4 + (4 - 1 - 2)) ∧
      out[2 * 4 * 1 + 2 * 2 + 1]? =
        some ((if 1 % 2 = 0 then 1 * 4 + 2 else 1 * 4 + (4 - 1 - 2)) + 4) :=
  C17_serpentine_closed_form 3 4 1 2 (by decide) (by decide) (by decide) (by decide)
    (by decide) (by decide) (by decide)

theorem innerLoop_none_of_wide (C r : Nat) (hC : 32768 ≤ C) :
    ∀ (fuel c idx : Nat) (out : List Nat), c < 65536 →
      innerLoop C r fuel c idx out = none := by
  intro fuel
  induction fuel with
  | zero =>
    intro c idx out _
    rfl
  | succ f ih =>
    intro c idx out hc
    have hlt : (c : Int) < (C : Int) * 2 := by omega
    rw [innerLoop, if_pos hlt]
    exact ih _ _ _ (by unfold toUShort; omega)

theorem generateGridIndices_none_of_wide (R C fuel : Nat) (hR2 : 2 ≤ R) (hC : 32768 ≤ C) :
    generateGridIndices fuel R C = none := by
  unfold generateGridIndices
  cases fuel with
  | zero => rfl
  | succ f =>
    have hlt : ((0 : Nat) : Int) < (R : Int) - 1 := by omega
    rw [outerLoop, if_pos hlt, innerLoop_none_of_wide C 0 hC f 0 0 [] (by omega)]

theorem generateGridIndices_of_no_row (R C fuel : Nat) (hR : R ≤ 1) :
    generateGridIndices (fuel + 1) R C = some [] := by
  unfold generateGridIndices
  have hlt : ¬ (((0 : Nat) : Int) < (R : Int) - 1) := by omega
  rw [outerLoop, if_neg hlt]

theorem innerLoopAfter_of_wide (C r : Nat) (hC : 32768 ≤ C) :
    ∀ (n c idx : Nat) (out : List Nat), c < 65536 →
      (innerLoopAfter C r n c idx out).1 = (c + n) % 65536 ∧
      (innerLoopAfter C r n c idx out).2.2.length = out.length + n := by
  intro n
  induction n with
  | zero =>
    intro c idx out hc
    exact ⟨(Nat.mod_eq_of_lt hc).symm, rfl⟩
  | succ n ih =>
    intro c idx out hc
    have hlt : (c : Int) < (C : Int) * 2 := by omega
    rw [innerLoopAfter, if_pos hlt]
    have hc1 : toUShort ((c : Int) + 1) < 65536 := by unfold toUShort; omega
    obtain ⟨h1, h2⟩ := ih (toUShort ((c : Int) + 1)) _ (out ++ [idx]) hc1
    refine ⟨?_, ?_⟩
    · rw [h1]
      unfold toUShort
      omega
    · rw [h2, List.length_append, List.length_singleton]
      omega

/-- C18: for `unsigned short` arguments, `generateGridIndices(R, C, out)`
returns for some fuel exactly when `R <= 1` or `C <= 32767`. For `R >= 2` and
`C >= 32768` it returns for no fuel: after `n` passes through the body of the
inner loop of the first strip row the counter `c` is `n mod 2^16`, which is
below `2*C`, and `n` entries are written, for every `n`. -/
theorem C18_termination (R C : Nat) (hR : R < 65536) (_hC : C < 65536) :
    ((∃ fuel out, generateGridIndices fuel R C = some out) ↔ (R ≤ 1 ∨ C ≤ 32767)) ∧
    (2 ≤ R → 32768 ≤ C →
      (∀ fuel, generateGridIndices fuel R C = none) ∧
      ∀ n, (innerLoopAfter C 0 n 0 0 []).1 = n % 65536 ∧
        (((innerLoopAfter C 0 n 0 0 []).1 : Nat) : Int) < (C : Int) * 2 ∧
        (innerLoopAfter C 0 n 0 0 []).2.2.length = n) := by
  refine ⟨⟨?_, ?_⟩, ?_⟩
  · rintro ⟨fuel, out, h⟩
    by_contra hcon
    rw [generateGridIndices_none_of_wide R C fuel (by omega) (by omega)] at h
    exact Option.noConfusion h
  · rintro (h | h)
    · exact ⟨1, [], generateGridIndices_of_no_row R C 0 h⟩
    · exact ⟨R + 2 * C + 2, _, generateGridIndices_eq R C _ hR h (Nat.le_refl _)⟩
  · intro hR2 hC
    refine ⟨fun fuel => generateGridIndices_none_of_wide R C fuel hR2 hC, ?_⟩
    intro n
    obtain ⟨h1, h2⟩ := innerLoopAfter_of_wide C 0 hC n 0 0 [] (by omega)
    rw [Nat.zero_add] at h1
    refine ⟨h1, ?_, ?_⟩
    · rw [h1]
      omega
    · rw [h2, List.length_nil, Nat.zero_add]

/-- Witness of C18: `R = 2` rows and `C = 32768` columns. -/
theorem C18_termination_witness :
    ((∃ fuel out, generateGridIndices fuel 2 32768 = some out) ↔ (2 ≤ 1 ∨ 32768 ≤ 32767)) ∧
    (∀ fuel, generateGridIndices fuel 2 32768 = none) ∧
    (innerLoopAfter 32768 0 3 0 0 []).2.2.length = 3 := by
  have t := C18_termination 2 32768 (by decide) (by decide)
  exact ⟨t.1, (t.2 (by decide) (by decide)).1, ((t.2 (by decide) (by decide)).2 3).2.2⟩

end Serpentine

section AxisImage

/-! ## The X axis of the normalisation transform -/

theorem graphScaleWith_of_lt (dv : ℚ → ℚ → ℚ) (range : ℚ) (h : |range| < 1 / 1000) :
    graphScaleWith dv range = 1 := by
  unfold graphScaleWith
  rw [if_pos h]

/-- C20: the scale and offset part of `computeTransformMat` maps an X
coordinate `x` to `s*(x - 1 - min*s)`, with `s` the X scale. When
`|max-min| >= 1e-3` the images of `max` and `min` differ by exactly 2, and
`min` is sent to `-1` exactly when `max - min = 2` or `max = -min`, which is
also exactly when `max` is sent to `+1`. When `|max-min| < 1e-3` the scale is
1 and `min` is sent to `-1`. -/
theorem C20_x_axis_image (r : Range6) (x y z : ℚ) :
    (scaleOffsetImage r x y z).x =
      graphScaleWith (fun a b => a / b) (r.xmax - r.xmin) *
        (x - 1 - r.xmin * graphScaleWith (fun a b => a / b) (r.xmax - r.xmin)) ∧
    (1 / 1000 ≤ |r.xmax - r.xmin| →
      (scaleOffsetImage r r.xmax y z).x - (scaleOffsetImage r r.xmin y z).x = 2 ∧
      ((scaleOffsetImage r r.xmin y z).x = -1 ↔ (r.xmax - r.xmin = 2 ∨ r.xmax = -r.xmin)) ∧
      ((scaleOffsetImage r r.xmin y z).x = -1 ↔ (scaleOffsetImage r r.xmax y z).x = 1)) ∧
    (|r.xmax - r.xmin| < 1 / 1000 →
      graphScaleWith (fun a b => a / b) (r.xmax - r.xmin) = 1 ∧
      (scaleOffsetImage r r.xmin y z).x = -1) := by
  refine ⟨?_, ?_, ?_⟩
  · rw [scaleOffsetImage_eq]
    ring
  · intro h
    have hne : r.xmax - r.xmin ≠ 0 := range_ne_zero _ h
    have hdiff : (scaleOffsetImage r r.xmax y z).x - (scaleOffsetImage r r.xmin y z).x = 2 := by
      simp only [scaleOffsetImage_eq, graphScaleWith_of_le _ _ h]
      field_simp
      ring
    have hmin : (scaleOffsetImage r r.xmin y z).x =
        -1 + (r.xmax - r.xmin - 2) * (r.xmax + r.xmin) / ((r.xmax - r.xmin) * (r.xmax - r.xmin)) := by
      simp only [scaleOffsetImage_eq, graphScaleWith_of_le _ _ h]
      field_simp
      ring
    refine ⟨hdiff, ?_, ?_⟩
    · rw [hmin]
      constructor
      · intro e
        have e2 : (r.xmax - r.xmin - 2) * (r.xmax + r.xmin) /
            ((r.xmax - r.xmin) * (r.xmax - r.xmin)) = 0 := by linarith
        rw [div_eq_zero_iff] at e2
        rcases e2 with e2 | e2
        · rcases mul_eq_zero.mp e2 with e3 | e3
          · left; linarith
          · right; linarith
        · exact absurd e2 (mul_ne_zero hne hne)
      · rintro (e | e)
        · have : r.xmax - r.xmin - 2 = 0 := by linarith
          rw [this]
          simp
        · have : r.xmax + r.xmin = 0 := by linarith
          rw [this]
          simp
    · constructor
      · intro e
        linarith
      · intro e
        linarith
  · intro h
    refine ⟨graphScaleWith_of_lt _ _ h, ?_⟩
    simp only [scaleOffsetImage_eq, graphScaleWith_of_lt _ _ h]
    ring

/-- Witness of C20: the range `[-3, 3]` (where `max = -min`), and the
degenerate range `[5, 5]`. -/
theorem C20_x_axis_image_witness :
    ((1 : ℚ) / 1000 ≤ |3 - (-3)| ∧ |(5 : ℚ) - 5| < 1 / 1000) ∧
    (scaleOffsetImage ⟨-3, 3, 0, 1, 0, 1⟩ 3 0 0).x -
      (scaleOffsetImage ⟨-3, 3, 0, 1, 0, 1⟩ (-3) 0 0).x = 2 ∧
    (scaleOffsetImage ⟨-3, 3, 0, 1, 0, 1⟩ (-3) 0 0).x = -1 ∧
    (scaleOffsetImage ⟨5, 5, 0, 1, 0, 1⟩ 5 0 0).x = -1 := by
  have h1 : (1 : ℚ) / 1000 ≤ |3 - (-3)| := by norm_num
  have h2 : |(5 : ℚ) - 5| < 1 / 1000 := by norm_num
  have t1 := (C20_x_axis_image ⟨-3, 3, 0, 1, 0, 1⟩ 0 0 0).2.1 h1
  have t2 := (C20_x_axis_image ⟨5, 5, 0, 1, 0, 1⟩ 0 0 0).2.2 h2
  exact ⟨⟨h1, h2⟩, t1.1, t1.2.1.mpr (Or.inr (by norm_num)), t2.2⟩

end AxisImage

end Forge
